import Mathlib

/-!
# Verification of the GraphRAG frontend client

Shallow embedding of the single-page client scripts of this repository
(`src/index.js`, `src/unnamed/part_000`, `src/unnamed/part_001`).  The three
scripts are variants of the same page controller; `src/index.js` and
`src/unnamed/part_001` share all helpers verbatim and differ only in the
literature-review handlers, so the common code is embedded once and the
part_001-specific handlers live in namespace `P1`.

The DOM is modelled as an explicit record of the element contents the scripts
read and write (`AppState`).  The backend is an oracle
`Backend : ApiRequest → HttpResponse`.  Each handler is a total function from
the current state (plus its inputs) to the new state together with the list of
observable events it emitted (fetches, alert dialogs, console errors); this
mirrors the source, where every `await apiCall(...)` sits inside a
`try { ... } catch { ... }` so no rejection escapes a handler.

Environment-determined behaviour (the rendering of
`new Date(x).toLocaleString()`, `Date.now()`, the `innerText` view of an
`innerHTML` assignment, and the message texts of runtime `TypeError`s) is
abstracted into an `Env` record; nothing proved below depends on its values.
-/

/-- JSON values, as produced by `response.json()` and consumed by the
handlers.  Object fields keep their insertion order, as in JS. -/
inductive Json where
  | null : Json
  | str (s : String) : Json
  | num (n : Int) : Json
  | bool (b : Bool) : Json
  | arr (elems : List Json) : Json
  | obj (fields : List (String × Json)) : Json

/-- Field access `v.k` on a JSON value: `some` the field of an object,
`none` (JS `undefined`) otherwise. -/
def Json.getField : Json → String → Option Json
  | .obj fields, k => fields.lookup k
  | _, _ => none

/-- JS truthiness of a JSON value. -/
def Json.truthy : Json → Bool
  | .null => false
  | .str s => !(s == "")
  | .num n => !(n == 0)
  | .bool b => b
  | .arr _ => true
  | .obj _ => true

mutual
/-- JS string coercion of a JSON value, as used in template literals
(`String(v)`): an array renders as its `join(",")`. -/
def Json.toStr : Json → String
  | .null => "null"
  | .str s => s
  | .num n => toString n
  | .bool b => if b then "true" else "false"
  | .arr elems => Json.listToStr elems
  | .obj _ => "[object Object]"
termination_by structural j => j

/-- The `join(",")` of an array's elements; `null` elements coerce to
the empty string. -/
def Json.listToStr : List Json → String
  | [] => ""
  | [.null] => ""
  | [e] => Json.toStr e
  | .null :: rest => "," ++ Json.listToStr rest
  | e :: rest => Json.toStr e ++ "," ++ Json.listToStr rest
termination_by structural l => l
end

/-- Template-literal interpolation of the field `k` of JSON value `d`:
a missing field renders as the string `undefined`. -/
def jsField (d : Json) (k : String) : String :=
  match d.getField k with
  | some v => v.toStr
  | none => "undefined"

/-- Whether `pat` is a prefix of the character list. -/
def takesPrefix : List Char → List Char → Bool
  | [], _ => true
  | _ :: _, [] => false
  | p :: ps, c :: cs => p == c && takesPrefix ps cs

/-- Replace every occurrence of `pat` by `rep`, scanning left to right
(the semantics of JS `replace` with a global literal pattern).  An empty
pattern leaves the list unchanged (the scripts only use the nonempty
patterns `\n` and `<br>`).  The fuel argument makes the recursion
structural; a nonempty pattern consumes at least one character per match,
so fuel equal to the input length never runs out. -/
def replChars (pat rep : List Char) : Nat → List Char → List Char
  | _, [] => []
  | 0, l => l
  | fuel + 1, c :: cs =>
    if takesPrefix pat (c :: cs) && !pat.isEmpty then
      rep ++ replChars pat rep fuel (List.drop (pat.length - 1) cs)
    else c :: replChars pat rep fuel cs

/-- JS `s.replace(pat-as-global-regex-literal, rep)`. -/
def jsReplaceAll (s pat rep : String) : String :=
  ⟨replChars pat.toList rep.toList s.toList.length s.toList⟩

/-- JS `s.trim()`: strip leading and trailing whitespace. -/
def jsTrim (s : String) : String :=
  ⟨((s.toList.dropWhile fun c => c.isWhitespace).reverse.dropWhile fun c =>
      c.isWhitespace).reverse⟩

/-- JS `s.toLowerCase()` (ASCII, as used on file extensions). -/
def jsToLower (s : String) : String :=
  ⟨s.toList.map Char.toLower⟩

/-- `s.split('.')` as a list of character groups. -/
def splitOnDot (cs : List Char) : List (List Char) :=
  cs.foldr
    (fun c acc =>
      if c == '.' then [] :: acc
      else
        match acc with
        | g :: gs => (c :: g) :: gs
        | [] => [[c]])
    [[]]

/-- The values JS code throws in these scripts: `new Error(msg)` from
`apiCall`, a `SyntaxError` from a failed `response.json()` on an ok
response, a file-read rejection (`file.text()` / `FileReader.onerror`),
and runtime `TypeError`s (e.g. calling `.replace` on a non-string). -/
inductive JsError where
  | error (message : String) : JsError
  | jsonSyntax (message : String) : JsError
  | fileRead (message : String) : JsError
  | typeErr (message : String) : JsError

/-- The `.message` field read by every `catch` clause. -/
def JsError.message : JsError → String
  | .error m => m
  | .jsonSyntax m => m
  | .fileRead m => m
  | .typeErr m => m

/-- An HTTP request as issued by `fetch` inside `apiCall`: the full URL
(`API_BASE + endpoint`), the method and the JSON body (absent when
`data` was null). -/
structure ApiRequest where
  url : String
  method : String
  body : Option Json

/-- An HTTP response as seen by `apiCall`: `ok`/`status` from the fetch
response, `body` the result of `response.json()` (`none` when the body is
not parseable JSON), and `parseFailMsg` the message of the `SyntaxError`
that `response.json()` rejects with in the unparseable case. -/
structure HttpResponse where
  ok : Bool
  status : Int
  body : Option Json
  parseFailMsg : String

/-- The backend oracle: what the server answers to each request. -/
def Backend : Type := ApiRequest → HttpResponse

/-- Observable side effects of a handler run, in order of occurrence. -/
inductive Event where
  | fetch (req : ApiRequest) : Event
  | alert (msg : String) : Event
  | consoleError (msg : String) : Event

/-- Environment-determined values the scripts use. -/
structure Env where
  /-- rendering of a template slot holding the
  value of a (JS) expression of the form `new Date(x).toLocaleString()` -/
  formatDate : Option Json → String
  /-- `Date.now()` -/
  nowMs : Int
  /-- the `innerText` view of content assigned through `innerHTML` -/
  innerTextOf : String → String
  /-- message carried by a runtime `TypeError` -/
  typeErrMsg : String

/-- A file picked in the file input.  Reading a file can reject, so both
read results are `Except` with the message the catch clause would see;
`readDataUrl` is the base64 data-URL produced by `FileReader.readAsDataURL`
(src/index.js sends it to the backend for pdf/docx files). -/
structure FileEntry where
  name : String
  /-- the MIME type, `file.type` -/
  mime : String
  /-- result of `await file.text()` -/
  readText : Except String String
  /-- result of the promisified `FileReader.readAsDataURL(file)` -/
  readDataUrl : Except String String

/-- `file.name.split('.').pop().toLowerCase()` -/
def fileExtensionOf (name : String) : String :=
  jsToLower ⟨(splitOnDot name.toList).getLastD []⟩

/-- One rendered draft-version button (`renderDraftViewer` /
`renderEnhancedDraftViewer` output).  `datasetIndex` is the string stored
in `dataset.index` (`none` = attribute absent). -/
structure DraftButton where
  datasetIndex : Option String
  datasetSection : Option String
  label : String
  active : Bool

/-- The mutable state of the page: the script-level variables
(`isLoading`, `documents`, `currentFileName`, `draftHistory`) and the DOM
contents the scripts read or write.  `documents` holds the raw JSON
elements of the backend `documents` array (the code never validates
their shape); `draftHistory` is `string[]` per the TypeScript source.
Panels written through `innerHTML` are kept as their HTML string;
`writingEditorText` is the `innerText` view of the writing editor, which
the analysis handlers read. -/
structure AppState where
  isLoading : Bool
  documents : List Json
  currentFileName : String
  draftHistory : List String
  articleInput : String
  fileInputValue : String
  fileNameDisplay : String
  loaderHidden : Bool
  loaderText : String
  processBtnDisabled : Bool
  fileInputDisabled : Bool
  generateBtnDisabled : Bool
  analyzeBtnDisabled : Bool
  similarityBtnDisabled : Bool
  questionInputDisabled : Bool
  chatBtnDisabled : Bool
  knowledgeList : List String
  kbContainerHidden : Bool
  litReviewHidden : Bool
  qaHidden : Bool
  progressHidden : Bool
  progressLog : List String
  reviewDraftOutput : String
  draftButtons : List DraftButton
  chatMessages : List (String × String)
  suggestionsPanel : String
  writingEditorHtml : String
  writingEditorText : String
  writingAssistantHidden : Bool
  questionInput : String
  reviewTopicInput : String
  reviewLengthChecked : Option String
  reviewTypeChecked : Option String
  reviewDepthChecked : Option String
  refinementFeedback : String
  sectionRefinementHidden : Bool
  currentPhaseText : String
  phaseProgressWidth : Int

/-- `setLoading(loading, text)`: updates the loading flag, the loader
visibility and text, and the disabled state of every control, exactly as
in the source. -/
def setLoading (s : AppState) (loading : Bool) (text : String) : AppState :=
  { s with
    isLoading := loading
    loaderHidden := !loading
    loaderText := text
    processBtnDisabled := loading || s.articleInput == ""
    fileInputDisabled := loading
    generateBtnDisabled := loading || s.documents.length == 0
    analyzeBtnDisabled := loading
    similarityBtnDisabled := loading
    questionInputDisabled := loading || s.documents.length == 0
    chatBtnDisabled := loading || s.documents.length == 0 }

/-- The host-determined message of the TypeError thrown by reading
property `p` of `null` (modelled as the V8 text; no theorem depends on
the concrete wording). -/
def nullReadMsg (p : String) : String :=
  "Cannot read properties of null (reading '" ++ p ++ "')"

/-- `apiCall(endpoint, method, data)`: performs exactly one fetch of
`API_BASE + endpoint`; on a non-ok response it builds
`errorData = await response.json().catch(() => ({message: 'Unknown error'}))`
and throws `new Error(errorData.message || 'HTTP ' + status)` — except
that when the body parses to JSON `null`, the property read
`errorData.message` itself throws a TypeError (the `.catch` only guards
the `response.json()` rejection); on an ok response it returns
`response.json()`, whose rejection (unparseable body) propagates as a
`SyntaxError`. -/
def apiCall (b : Backend) (endpoint : String) (method : String)
    (data : Option Json) : Except JsError Json × List Event :=
  let req : ApiRequest := ⟨"/api" ++ endpoint, method, data⟩
  let resp := b req
  if resp.ok then
    match resp.body with
    | some j => (.ok j, [.fetch req])
    | none => (.error (.jsonSyntax resp.parseFailMsg), [.fetch req])
  else
    let errorData : Json :=
      match resp.body with
      | some j => j
      | none => .obj [("message", .str "Unknown error")]
    match errorData with
    | .null => (.error (.typeErr (nullReadMsg "message")), [.fetch req])
    | ed =>
      let msg : String :=
        match ed.getField "message" with
        | some v => if v.truthy then v.toStr else "HTTP " ++ toString resp.status
        | none => "HTTP " ++ toString resp.status
      (.error (.error msg), [.fetch req])

/-- Value of one hex digit, if any. -/
def hexDigitVal (c : Char) : Option Nat :=
  if c.isDigit then some (c.toNat - 48)
  else if 'a' ≤ c && c ≤ 'f' then some (c.toNat - 87)
  else if 'A' ≤ c && c ≤ 'F' then some (c.toNat - 55)
  else none

/-- Parse the maximal prefix of digits in the given radix; `none` when the
prefix is empty (JS `NaN`). -/
def parseDigits (radix : Nat) : List Char → Option Nat → Option Nat
  | [], acc => acc
  | c :: rest, acc =>
    match hexDigitVal c with
    | some v =>
      if v < radix then parseDigits radix rest (some ((acc.getD 0) * radix + v)) else acc
    | none => acc

/-- JS `parseInt(s)` with no radix argument: leading whitespace skipped,
optional sign, `0x`/`0X` prefix selects base 16, then the maximal digit
prefix; `none` models `NaN`. -/
def jsParseInt (s : String) : Option Int :=
  let cs := s.toList.dropWhile fun c => c.isWhitespace
  let signed : Int × List Char :=
    match cs with
    | '-' :: rest => (-1, rest)
    | '+' :: rest => (1, rest)
    | _ => (1, cs)
  let based : Nat × List Char :=
    match signed.2 with
    | '0' :: 'x' :: rest => (16, rest)
    | '0' :: 'X' :: rest => (16, rest)
    | _ => (10, signed.2)
  match parseDigits based.1 based.2 none with
  | some n => some (signed.1 * Int.ofNat n)
  | none => none

/-- The HTML of one knowledge-source card, built from the document's
`filename`, `chunks`, `processed_at` (through `new Date(..).toLocaleString()`)
and `path` fields; insignificant template whitespace is dropped. -/
def docCard (env : Env) (d : Json) : String :=
  "<h4>" ++ jsField d "filename" ++ "</h4><p><strong>Chunks:</strong> " ++
  jsField d "chunks" ++ " | <strong>Processed:</strong> " ++
  env.formatDate (d.getField "processed_at") ++
  "</p><p><strong>Path:</strong> " ++ jsField d "path" ++ "</p>"

/-- `renderDocuments()`: clears the knowledge list, unhides the containers
when there are documents, then appends one card per document in order. -/
def renderDocuments (env : Env) (s : AppState) : AppState :=
  let s1 := { s with knowledgeList := ([] : List String) }
  let s2 :=
    if s1.documents.length > 0 then
      { s1 with kbContainerHidden := false, litReviewHidden := false, qaHidden := false }
    else s1
  { s2 with knowledgeList := s2.documents.map (docCard env) }

/-- `addProgressLog(html)`: appends one log-entry div to the progress log. -/
def addProgressLog (s : AppState) (html : String) : AppState :=
  { s with progressLog := s.progressLog ++ ["<div class=\"log-entry\">" ++ html ++ "</div>"] }

/-- `addMessageToChat(text, sender)`: appends one chat message. -/
def addMessageToChat (s : AppState) (text sender : String) : AppState :=
  { s with chatMessages := s.chatMessages ++ [(text, sender)] }

/-- `renderDraftViewer()`: clears the version controls and renders one
button per draft; index 0 is labelled `Draft`, later ones `Version n+1`,
and the last one is active. -/
def renderDraftViewer (s : AppState) : AppState :=
  let s1 := { s with draftButtons := ([] : List DraftButton) }
  if s1.draftHistory.length == 0 then s1
  else
    { s1 with draftButtons :=
        (List.range s1.draftHistory.length).map fun index =>
          { datasetIndex := some (toString index)
            datasetSection := none
            label := if index == 0 then "Draft" else "Version " ++ toString (index + 1)
            active := index == s1.draftHistory.length - 1 } }

/-- `result.documents || []`, restricted to backends whose `documents`
field is an array or absent/falsy (with a truthy non-array the script
would crash on `documents.forEach` inside its own catch-all; no claim
depends on that corner). -/
def jsDocsArray (result : Json) : List Json :=
  match result.getField "documents" with
  | some (.arr xs) => xs
  | _ => []

/-- `loadDocuments()`: fetches `/api/documents`, stores the documents
array and re-renders; on any failure — a thrown `apiCall`, or the
TypeError from `result.documents` when the ok body is JSON `null` — it
only logs to the console and leaves the list unchanged. -/
def loadDocuments (env : Env) (b : Backend) (s : AppState) : AppState × List Event :=
  match apiCall b "/documents" "GET" none with
  | (.ok .null, evs) =>
    (s, evs ++ [.consoleError ("Error loading documents: " ++ nullReadMsg "documents")])
  | (.ok result, evs) =>
    let docs := jsDocsArray result
    let s1 := renderDocuments env { s with documents := docs }
    let s2 :=
      if docs.length > 0 then
        { s1 with questionInputDisabled := false, chatBtnDisabled := false,
                  generateBtnDisabled := false, qaHidden := false, litReviewHidden := false }
      else s1
    (s2, evs)
  | (.error e, evs) =>
    (s, evs ++ [.consoleError ("Error loading documents: " ++ e.message)])

/-- `checkSystemStatus()`: fetches `/api/status`; when the status is the
string `ready` it loads the documents and reports `true`; any failure
(including the TypeError from `result.status` on a JSON-`null` ok body)
is caught and only logged. -/
def checkSystemStatus (env : Env) (b : Backend) (s : AppState) :
    Bool × AppState × List Event :=
  match apiCall b "/status" "GET" none with
  | (.ok .null, evs) => (false, s, evs ++ [.consoleError "System not ready"])
  | (.ok result, evs) =>
    match result.getField "status" with
    | some (.str t) =>
      if t == "ready" then
        let r := loadDocuments env b s
        (true, r.1, evs ++ r.2)
      else (false, s, evs)
    | _ => (false, s, evs)
  | (.error _, evs) => (false, s, evs ++ [.consoleError "System not ready"])

/-- `initializeApp()`: shows the loader, checks the system status (which
catches its own failures) and clears the loader in `finally`. -/
def initializeApp (env : Env) (b : Backend) (s : AppState) : AppState × List Event :=
  let s0 := setLoading s true "Connecting to GraphRAG system..."
  let r := checkSystemStatus env b s0
  (setLoading r.2.1 false "Processing...", r.2.2)

/-- The requests carried by the fetch events of a trace, in order. -/
def fetchedReqs (evs : List Event) : List ApiRequest :=
  evs.filterMap fun e =>
    match e with
    | .fetch r => some r
    | _ => none

/-- `currentFileName || Manual_Entry_<Date.now()>.txt`. -/
def docNameOf (env : Env) (s : AppState) : String :=
  if !(s.currentFileName == "") then s.currentFileName
  else "Manual_Entry_" ++ toString env.nowMs ++ ".txt"

/-- The `/api/add_document` body `handleProcessArticle` posts. -/
def addDocBody (env : Env) (s : AppState) : Json :=
  .obj [("content", .str (jsTrim s.articleInput)), ("filename", .str (docNameOf env s))]

/-- `handleProcessArticle()`: validates the text area, posts the article
to `/api/add_document`, reloads the document list and clears the inputs
on success; an error is caught, logged and alerted; `finally` clears the
loading state. -/
def handleProcessArticle (env : Env) (b : Backend) (s : AppState) : AppState × List Event :=
  let articleText := jsTrim s.articleInput
  if articleText == "" then
    (s, [.alert "Please paste text into the text area or upload a file."])
  else
    let docName := docNameOf env s
    let s0 := setLoading s true ("Adding " ++ docName ++ " to GraphRAG...")
    match apiCall b "/add_document" "POST" (some (addDocBody env s)) with
    | (.ok _, evs) =>
      let r := loadDocuments env b s0
      let s2 := { r.1 with articleInput := "", fileInputValue := "",
                           fileNameDisplay := "", currentFileName := "" }
      (setLoading s2 false "Processing...",
       evs ++ r.2 ++ [.alert ("✅ Successfully added \"" ++ docName ++ "\" to GraphRAG system!")])
    | (.error e, evs) =>
      (setLoading s0 false "Processing...",
       evs ++ [.consoleError ("Error adding document: " ++ e.message),
               .alert ("❌ Error adding document: " ++ e.message)])

/-- The single-file branch of `handleFileSelect` in src/index.js: pdf and
docx/doc files are read as base64 data URLs and posted directly to
`/api/add_document` (success path alerts, reloads the list, clears the
input, calls `setLoading(false)` and returns through the `finally`, which
calls it again); other files are read as text into the text area.  All
failures land in the shared catch clause. -/
def handleSingleFile (env : Env) (b : Backend) (file : FileEntry) (s : AppState) :
    AppState × List Event :=
  let s0 := { s with fileNameDisplay := "Selected: " ++ file.name,
                     currentFileName := file.name, articleInput := "" }
  let s1 := setLoading s0 true ("Reading " ++ file.name ++ "...")
  let ext := fileExtensionOf file.name
  let onErr := fun (e : JsError) (sc : AppState) (evs : List Event) =>
    (setLoading { sc with fileNameDisplay := "Error processing file.", currentFileName := "" }
       false "Processing...",
     evs ++ [.consoleError ("Error processing file: " ++ e.message),
             .alert ("Error processing " ++ file.name ++ ": " ++ e.message)])
  if file.mime == "application/pdf" || ext == "pdf" then
    match file.readDataUrl with
    | .error m => onErr (.fileRead m) s1 []
    | .ok base64 =>
      match apiCall b "/add_document" "POST"
          (some (.obj [("content", .str base64), ("filename", .str file.name),
                       ("file_type", .str "pdf")])) with
      | (.error e, evs) => onErr e s1 evs
      | (.ok _, evs) =>
        let r := loadDocuments env b s1
        let s2 := { r.1 with fileInputValue := "", fileNameDisplay := "", currentFileName := "" }
        (setLoading (setLoading s2 false "Processing...") false "Processing...",
         evs ++ [.alert ("✅ PDF file \"" ++ file.name ++ "\" uploaded successfully!")] ++ r.2)
  else if ext == "docx" || ext == "doc" then
    match file.readDataUrl with
    | .error m => onErr (.fileRead m) s1 []
    | .ok base64 =>
      match apiCall b "/add_document" "POST"
          (some (.obj [("content", .str base64), ("filename", .str file.name),
                       ("file_type", .str "docx")])) with
      | (.error e, evs) => onErr e s1 evs
      | (.ok _, evs) =>
        let r := loadDocuments env b s1
        let s2 := { r.1 with fileInputValue := "", fileNameDisplay := "", currentFileName := "" }
        (setLoading (setLoading s2 false "Processing...") false "Processing...",
         evs ++ [.alert ("✅ Word document \"" ++ file.name ++ "\" uploaded successfully!")] ++ r.2)
  else
    match file.readText with
    | .error m => onErr (.fileRead m) s1 []
    | .ok t =>
      (setLoading { s1 with articleInput := jsTrim t } false "Processing...", [])

/-- Reading one file of a multi-file batch of src/index.js: the
`/api/add_document` body on success (base64 content with a `file_type`
for pdf/docx/doc, trimmed text content with `file_type: text` otherwise),
or the read rejection. -/
def batchRead (file : FileEntry) : Except String Json :=
  let ext := fileExtensionOf file.name
  if ext == "pdf" || ext == "docx" || ext == "doc" then
    match file.readDataUrl with
    | .ok base64 =>
      .ok (.obj [("content", .str base64), ("filename", .str file.name),
                 ("file_type", .str (if ext == "pdf" then "pdf" else "docx"))])
    | .error m => .error m
  else
    match file.readText with
    | .ok t =>
      .ok (.obj [("content", .str (jsTrim t)), ("filename", .str file.name),
                 ("file_type", .str "text")])
    | .error m => .error m

/-- The inline alert of the batch catch clause. -/
def batchAlertMsg (name : String) : String :=
  "Error processing " ++ name ++ ". Continuing with next file."

/-- The events one iteration of the multi-file loop emits: the fetch of
its upload (when the read succeeded), followed by the console error and
the `Continuing with next file.` alert when reading or uploading
failed. -/
def stepEvs (b : Backend) (file : FileEntry) : List Event :=
  match batchRead file with
  | .ok body =>
    match apiCall b "/add_document" "POST" (some body) with
    | (.ok _, evs) => evs
    | (.error e, evs) =>
      evs ++ [.consoleError ("Error processing file " ++ file.name ++ ": " ++ e.message),
              .alert (batchAlertMsg file.name)]
  | .error m =>
    [.consoleError ("Error processing file " ++ file.name ++ ": " ++
        (JsError.fileRead m).message),
     .alert (batchAlertMsg file.name)]

/-- One iteration of the multi-file loop of `handleFileSelect` in
src/index.js: update the loader text, read the file, post it to
`/api/add_document`; any failure is caught, logged and alerted with
`Continuing with next file.`, and only the loader text changes on the
page state. -/
def batchStep (b : Backend) (total i : Nat) (file : FileEntry) (s : AppState) :
    AppState × List Event :=
  (setLoading s true
     ("Processing " ++ toString (i + 1) ++ "/" ++ toString total ++ ": " ++ file.name),
   stepEvs b file)

/-- The `for` loop over the selected files in the multi-file branch. -/
def batchLoop (b : Backend) (total : Nat) : Nat → List FileEntry → AppState → AppState × List Event
  | _, [], s => (s, [])
  | i, f :: rest, s =>
    let r1 := batchStep b total i f s
    let r2 := batchLoop b total (i + 1) rest r1.1
    (r2.1, r1.2 ++ r2.2)

/-- `handleFileSelect(event)` of src/index.js: no file clears the
display; one file goes through `handleSingleFile`; several files are
processed by the loop, after which the document list is reloaded once and
the loading state cleared. -/
def handleFileSelect (env : Env) (b : Backend) (files : List FileEntry) (s : AppState) :
    AppState × List Event :=
  match files with
  | [] => ({ s with fileNameDisplay := "", currentFileName := "" }, [])
  | [file] => handleSingleFile env b file s
  | _ =>
    let s0 := { s with fileNameDisplay := "Processing " ++ toString files.length ++ " files..." }
    let r1 := batchLoop b files.length 0 files s0
    let r2 := loadDocuments env b r1.1
    let s3 := setLoading r2.1 false "Processing..."
    ({ s3 with fileNameDisplay := toString files.length ++ " file(s) processed.",
               fileInputValue := "" },
     r1.2 ++ r2.2)

/-- The body of a `/api/query` POST. -/
def queryBody (question : String) : Json :=
  .obj [("question", .str question)]

/-- The detailed review prompt template of src/index.js (template
indentation abbreviated). -/
def detailedPrompt (topic : String) : String :=
  "Generate a comprehensive literature review on the topic: \"" ++ topic ++ "\". \n" ++
  "Structure it with:\n1. Introduction (define the topic and scope)\n" ++
  "2. Main body sections (compare and contrast the sources, identify themes)\n" ++
  "3. Conclusion (summarize key findings and gaps)\n" ++
  "Use academic writing style and include proper citations."

/-- The concise review prompt template of src/index.js. -/
def concisePrompt (topic : String) : String :=
  "Generate a concise literature review (1-2 paragraphs) on the topic: \"" ++ topic ++ "\". \n" ++
  "Compare and contrast the key findings from the sources and include citations."

/-- The prompt `handleGenerateReview` of src/index.js builds from the
topic and the review-length radio (`detailed` when none is checked). -/
def reviewPrompt (s : AppState) : String :=
  let reviewLength :=
    match s.reviewLengthChecked with
    | some v => v
    | none => "detailed"
  if reviewLength == "detailed" then detailedPrompt (jsTrim s.reviewTopicInput)
  else concisePrompt (jsTrim s.reviewTopicInput)

/-- `handleGenerateReview(event)` of src/index.js: resets the progress
panel and the draft history, queries `/api/query` with the prompt chosen
by the review-length radio, pushes the answer as the first draft, renders
the draft viewer and copies the draft to the writing assistant; an error
is caught, logged, added to the progress log and alerted; `finally`
clears the loading state.  A non-string `result.answer` makes
`draft.replace` throw a TypeError after the push, landing in the same
catch clause (the model, whose `draftHistory` is `string[]` as in the
TypeScript source, does not record such a junk entry). -/
def handleGenerateReview (env : Env) (b : Backend) (s : AppState) : AppState × List Event :=
  let topic := jsTrim s.reviewTopicInput
  if topic == "" then (s, [])
  else if s.documents.length == 0 then (s, [.alert "Please add some documents first!"])
  else
    let s0 := { s with progressHidden := false, progressLog := ([] : List String),
                       reviewDraftOutput := "", draftButtons := ([] : List DraftButton),
                       draftHistory := ([] : List String) }
    let s1 := setLoading s0 true "Generating literature review..."
    let s2 := addProgressLog s1 "<strong>Step 1:</strong> Querying GraphRAG system..."
    let onErr := fun (e : JsError) (sc : AppState) (evs : List Event) =>
      (setLoading (addProgressLog sc ("❌ Error: " ++ e.message)) false "Processing...",
       evs ++ [.consoleError ("Error generating review: " ++ e.message),
               .alert "Error generating literature review."])
    match apiCall b "/query" "POST" (some (queryBody (reviewPrompt s))) with
    | (.error e, evs) => onErr e s2 evs
    | (.ok result, evs) =>
      let s3 := addProgressLog s2 "<strong>Step 2:</strong> Literature review generated!"
      match result.getField "answer" with
      | some (.str draft) =>
        let s4 := { s3 with draftHistory := s3.draftHistory ++ [draft],
                            reviewDraftOutput := jsReplaceAll draft "\n" "<br>" }
        let s5 := renderDraftViewer s4
        let s6 := { s5 with writingEditorHtml := jsReplaceAll draft "\n" "<br>",
                            writingEditorText := env.innerTextOf (jsReplaceAll draft "\n" "<br>"),
                            writingAssistantHidden := false }
        let s7 := addProgressLog s6
          "<strong>Complete!</strong> Review ready for editing in Writing Assistant."
        (setLoading s7 false "Processing...", evs)
      | _ => onErr (.typeErr env.typeErrMsg) s3 evs

/-- `handleAskQuestion(event)`: guarded by a non-empty question, not
loading and a non-empty document list; posts the question to
`/api/query` and appends the answer to the chat; an error — a thrown
`apiCall`, or the TypeError from `result.answer` when the ok body is
JSON `null` — is caught, logged and surfaced as a chat message from the
model; `finally` clears the loading state. -/
def handleAskQuestion (b : Backend) (s : AppState) : AppState × List Event :=
  let userQuestion := jsTrim s.questionInput
  if userQuestion == "" || s.isLoading || s.documents.length == 0 then (s, [])
  else
    let s0 := setLoading s true "Asking GraphRAG..."
    let s1 := addMessageToChat s0 userQuestion "user"
    let s2 := { s1 with questionInput := "" }
    match apiCall b "/query" "POST" (some (queryBody userQuestion)) with
    | (.ok .null, evs) =>
      (setLoading
         (addMessageToChat s2 ("Sorry, I encountered an error: " ++ nullReadMsg "answer")
           "model")
         false "Processing...",
       evs ++ [.consoleError ("Error asking question: " ++ nullReadMsg "answer")])
    | (.ok result, evs) =>
      (setLoading (addMessageToChat s2 (jsField result "answer") "model") false "Processing...",
       evs)
    | (.error e, evs) =>
      (setLoading
         (addMessageToChat s2 ("Sorry, I encountered an error: " ++ e.message) "model")
         false "Processing...",
       evs ++ [.consoleError ("Error asking question: " ++ e.message)])

/-- The analysis prompt of `handleAnalyzeText`. -/
def analyzePrompt (text : String) : String :=
  "Please analyze this text for grammar, style, and clarity issues. " ++
  "Provide specific suggestions for improvement:\n\n\"" ++ text ++ "\""

/-- The suggestion card written into the suggestions panel on success
(template whitespace abbreviated). -/
def suggestionCard (answerHtml : String) : String :=
  "<div class=\"suggestion-card\"><div class=\"suggestion-card-header\">" ++
  "<span class=\"suggestion-category Style\">GraphRAG Analysis</span></div>" ++
  "<div class=\"suggestion-body\">" ++ answerHtml ++ "</div></div>"

/-- `handleAnalyzeText()`: posts the editor text to `/api/query` and
renders the answer into the suggestions panel; an error (including a
TypeError from `result.answer.replace` on a non-string answer) is caught
and surfaced as the `Failed to analyze text.` placeholder; `finally`
clears the loading state. -/
def handleAnalyzeText (env : Env) (b : Backend) (s : AppState) : AppState × List Event :=
  let text := jsTrim s.writingEditorText
  if text == "" then (s, [.alert "Please write some text first."])
  else
    let s0 := setLoading s true "Analyzing text..."
    let s1 := { s0 with suggestionsPanel := "<div class=\"placeholder\">Analyzing...</div>" }
    let onErr := fun (e : JsError) (evs : List Event) =>
      (setLoading
         { s1 with suggestionsPanel := "<div class=\"placeholder\">Failed to analyze text.</div>" }
         false "Processing...",
       evs ++ [.consoleError ("Error analyzing text: " ++ e.message)])
    match apiCall b "/query" "POST" (some (queryBody (analyzePrompt text))) with
    | (.error e, evs) => onErr e evs
    | (.ok result, evs) =>
      match result.getField "answer" with
      | some (.str a) =>
        (setLoading { s1 with suggestionsPanel := suggestionCard (jsReplaceAll a "\n" "<br>") }
           false "Processing...",
         evs)
      | _ => onErr (.typeErr env.typeErrMsg) evs

/-- The similarity prompt of `handleSimilarityCheck`. -/
def similarityPrompt (text : String) : String :=
  "Check if this text has any similarities to the documents in the knowledge base. " ++
  "Identify any potential plagiarism or very similar passages:\n\n\"" ++ text ++ "\""

/-- `handleSimilarityCheck()`: posts the editor text to `/api/query` and
alerts the answer; an error — a thrown `apiCall`, or the TypeError from
`result.answer` when the ok body is JSON `null` — is caught, logged and
alerted; `finally` clears the loading state. -/
def handleSimilarityCheck (b : Backend) (s : AppState) : AppState × List Event :=
  let text := jsTrim s.writingEditorText
  if text == "" then (s, [.alert "Please write some text first."])
  else
    let s0 := setLoading s true "Checking for similarity..."
    match apiCall b "/query" "POST" (some (queryBody (similarityPrompt text))) with
    | (.ok .null, evs) =>
      (setLoading s0 false "Processing...",
       evs ++ [.consoleError ("Error checking similarity: " ++ nullReadMsg "answer"),
               .alert "Error during similarity check."])
    | (.ok result, evs) =>
      (setLoading s0 false "Processing...",
       evs ++ [.alert ("Similarity Check Results:\n\n" ++ jsField result "answer")])
    | (.error e, evs) =>
      (setLoading s0 false "Processing...",
       evs ++ [.consoleError ("Error checking similarity: " ++ e.message),
               .alert "Error during similarity check."])

/-- The click listener on the draft version controls: a click on anything
without the `version-button` class is ignored; otherwise the active class
moves to the clicked button (`clickedPos` is its position in the
container), the index is `parseInt(target.dataset.index || '0')`, and the
output pane shows `draftHistory[index] || 'Could not load this version.'`
with newlines replaced by `<br>`.  A missing or falsy (empty) stored
index falls back to the string `'0'`; an unparseable index gives `NaN`,
whose array lookup is `undefined` and hence shows the fallback text; an
empty-string draft is falsy and also shows the fallback text. -/
def draftVersionClick (isVersionButton : Bool) (clickedPos : Nat)
    (datasetIndex : Option String) (s : AppState) : AppState :=
  if !isVersionButton then s
  else
    let s0 := { s with draftButtons :=
      s.draftButtons.enum.map fun (p : Nat × DraftButton) =>
        { p.2 with active := p.1 == clickedPos } }
    let raw :=
      match datasetIndex with
      | some v => if !(v == "") then v else "0"
      | none => "0"
    let entry : Option String :=
      match jsParseInt raw with
      | none => none
      | some i => if i < 0 then none else s0.draftHistory.get? i.toNat
    let draftText :=
      match entry with
      | some t => if !(t == "") then t else "Could not load this version."
      | none => "Could not load this version."
    { s0 with reviewDraftOutput := jsReplaceAll draftText "\n" "<br>" }

/-- Template rendering of `x.length`: arrays and strings have a numeric
length, other values render as `undefined`. -/
def jsLengthStr : Json → String
  | .arr xs => toString xs.length
  | .str s => toString s.length
  | _ => "undefined"

/-- JS `Array.prototype.join`: elements are string-coerced, with `null`
and `undefined` becoming the empty string. -/
def jsJoin (xs : List Json) (sep : String) : String :=
  String.intercalate sep (xs.map fun e =>
    match e with
    | .null => ""
    | v => v.toStr)

/-- `Object.entries(v)` with both components template-coerced: object
fields in order, array/string elements by index, nothing for other
primitives. -/
def jsEntries : Json → List (String × String)
  | .obj fs => fs.map fun kv => (kv.1, kv.2.toStr)
  | .arr xs => xs.enum.map fun p => (toString p.1, p.2.toStr)
  | .str s => (s.toList.enum).map fun p => (toString p.1, String.singleton p.2)
  | _ => []

/-- `Object.values(v || {}).join(', ')`. -/
def jsValuesJoined (v : Option Json) : String :=
  let base : Json :=
    match v with
    | some w => if w.truthy then w else .obj []
    | none => .obj []
  match base with
  | .obj fs => jsJoin (fs.map Prod.snd) ", "
  | .arr xs => jsJoin xs ", "
  | .str s => String.intercalate ", " (s.toList.map fun c => String.singleton c)
  | _ => ""

namespace P1

/-- The `phaseNames` table of `processReviewPhases` in src/unnamed/part_001. -/
def phaseNames : List (String × String) :=
  [("Scoping", "Scoping and Question Development"),
   ("Literature Search", "Comprehensive Literature Search"),
   ("Critical Analysis", "Critical Analysis and Theme Identification"),
   ("Synthesis", "Synthesis and Framework Development"),
   ("Academic Writing", "Academic Writing (5 C's Framework)"),
   ("Refinement", "Iterative Refinement and Quality Assurance")]

/-- The `descriptions` table of `getPhaseDescription`. -/
def phaseDescriptions : List (String × String) :=
  [("Scoping", "Defining research questions and search strategy"),
   ("Literature Search", "Identifying and gathering relevant sources"),
   ("Critical Analysis", "Analyzing themes, patterns, and debates"),
   ("Synthesis", "Developing conceptual framework and connections"),
   ("Academic Writing", "Writing sections using the 5 C's framework"),
   ("Refinement", "Quality assessment and iterative improvement")]

/-- `getPhaseDescription(phase)`: table lookup by the string coercion of
the key, falling back to `Processing...`. -/
def getPhaseDescription (key : String) : String :=
  match phaseDescriptions.lookup key with
  | some d => d
  | none => "Processing..."

/-- `updatePhaseIndicator(phaseName, percentage)`. -/
def updatePhaseIndicator (s : AppState) (phaseName : String) (percentage : Int) : AppState :=
  { s with currentPhaseText := phaseName, phaseProgressWidth := percentage }

/-- `progressPercentages[i] || (i + 1) * 16` (a missing entry is
`undefined`, hence falsy). -/
def progressAt (i : Nat) : Int :=
  let table : List Int := [15, 30, 50, 70, 85, 100]
  match table.get? i with
  | some p => p
  | none => (Int.ofNat i + 1) * 16

/-- Strict equality test `phase.phase === k` for a string literal `k`. -/
def isPhaseKey (pphase : Option Json) (k : String) : Bool :=
  match pphase with
  | some (.str t) => t == k
  | _ => false

/-- One iteration of the loop in `processReviewPhases`: `phase.phase`
throws on a null element; the phase name and description are looked up by
the string coercion of `phase.phase`; the phase-specific blocks log their
details and throw a TypeError where the source would (calling `forEach`
or `join` on a truthy non-array). -/
def processPhase (env : Env) (i : Nat) (phase : Json) (s : AppState) :
    Except JsError AppState :=
  match phase with
  | .null => .error (.typeErr env.typeErrMsg)
  | _ => do
    let pphase : Option Json := phase.getField "phase"
    let keyStr : String :=
      match pphase with
      | some v => v.toStr
      | none => "undefined"
    let phaseName : String :=
      match phaseNames.lookup keyStr with
      | some nm => nm
      | none => keyStr
    let s := updatePhaseIndicator s phaseName (progressAt i)
    let s := addProgressLog s
      ("<strong>" ++ keyStr ++ ":</strong> " ++ getPhaseDescription keyStr)
    let s ←
      if isPhaseKey pphase "Scoping" then
        match phase.getField "research_questions" with
        | some v =>
          if v.truthy then do
            let s := addProgressLog s ("📋 Research Questions Identified: " ++ jsLengthStr v)
            match v with
            | .arr rqs =>
              rqs.enum.foldlM (fun (st : AppState) (p : Nat × Json) =>
                match p.2 with
                | .null => Except.error (.typeErr env.typeErrMsg)
                | rq => Except.ok (addProgressLog st
                    ("   " ++ toString (p.1 + 1) ++ ". " ++ jsField rq "question"))) s
            | _ => .error (.typeErr env.typeErrMsg)
          else pure s
        | none => pure s
      else pure s
    let s ←
      if isPhaseKey pphase "Literature Search" then
        match phase.getField "sources_found" with
        | some v =>
          if v.truthy then do
            let s := addProgressLog s ("📚 Sources Found: " ++ v.toStr)
            match phase.getField "sources_by_type" with
            | some w =>
              if w.truthy then
                pure ((jsEntries w).foldl (fun (st : AppState) (kv : String × String) =>
                  addProgressLog st ("   - " ++ kv.1 ++ ": " ++ kv.2)) s)
              else pure s
            | none => pure s
          else pure s
        | none => pure s
      else pure s
    let s ←
      if isPhaseKey pphase "Critical Analysis" then
        match phase.getField "themes_identified" with
        | some v =>
          if v.truthy then do
            let s := addProgressLog s ("🔍 Themes Identified: " ++ v.toStr)
            match phase.getField "major_themes" with
            | some w =>
              if w.truthy then
                match w with
                | .arr themes =>
                  Except.ok (themes.foldl (fun (st : AppState) (th : Json) =>
                    addProgressLog st ("   - " ++ th.toStr)) s)
                | _ => Except.error (.typeErr env.typeErrMsg)
              else pure s
            | none => pure s
          else pure s
        | none => pure s
      else pure s
    let s ←
      if isPhaseKey pphase "Academic Writing" then
        match phase.getField "sections_written" with
        | some v =>
          if v.truthy then do
            let s := addProgressLog s ("✍️ Sections Written: " ++ v.toStr)
            let wordCount : String :=
              match phase.getField "total_word_count" with
              | some w => if w.truthy then w.toStr else "N/A"
              | none => "N/A"
            let s := addProgressLog s ("📊 Total Word Count: " ++ wordCount)
            let framework : Except JsError String :=
              match phase.getField "writing_principles" with
              | none => .ok "5 C's"
              | some .null => .ok "5 C's"
              | some (.arr xs) =>
                let j := jsJoin xs ", "
                .ok (if j == "" then "5 C's" else j)
              | some _ => .error (.typeErr env.typeErrMsg)
            match framework with
            | .ok f => .ok (addProgressLog s ("🎯 Writing Framework: " ++ f))
            | .error e => .error e
          else pure s
        | none => pure s
      else pure s
    pure s

/-- The element list the `for` loop of `processReviewPhases` iterates
over: an array gives its elements, a string its characters (JS indexing);
other truthy values have no numeric `length`, so the loop body never runs
(an object that happens to carry numeric `length` and index fields is not
modelled; no claim depends on it). -/
def jsPhasesElems : Json → List Json
  | .arr xs => xs
  | .str s => s.toList.map fun c => Json.str (String.singleton c)
  | _ => []

/-- `processReviewPhases(phases)` of src/unnamed/part_001: performs no
fetch; iterates the phases, logging and updating the phase indicator, and
propagates any TypeError from a malformed phase to the caller's catch. -/
def processReviewPhases (env : Env) (phases : Json) (s : AppState) :
    Except JsError AppState :=
  ((jsPhasesElems phases).enum).foldlM (fun st p => processPhase env p.1 p.2 st) s

/-- The section list of `renderEnhancedDraftViewer`. -/
def enhancedSections : List String :=
  ["Introduction", "Methodology", "Themes", "Analysis", "Synthesis", "Conclusion"]

/-- `renderEnhancedDraftViewer(process)`: clears the version controls and,
when `process` and `process.phases` are truthy, renders one button per
section with `dataset.section` set (and no `dataset.index`), the first
one active. -/
def renderEnhancedDraftViewer (process : Option Json) (s : AppState) : AppState :=
  let s0 := { s with draftButtons := ([] : List DraftButton) }
  let proceed : Bool :=
    match process with
    | some v =>
      v.truthy &&
        (match v.getField "phases" with
         | some w => w.truthy
         | none => false)
    | none => false
  if !proceed then s0
  else
    { s0 with draftButtons :=
        enhancedSections.enum.map fun p =>
          { datasetIndex := none, datasetSection := some (jsToLower p.2),
            label := p.2, active := p.1 == 0 } }

/-- `showSectionContent(sectionName)`: shows
`draftHistory[0] || 'No content available'` in the output pane. -/
def showSectionContent (s : AppState) : AppState :=
  let fullContent :=
    match s.draftHistory.get? 0 with
    | some t => if !(t == "") then t else "No content available"
    | none => "No content available"
  { s with reviewDraftOutput := jsReplaceAll fullContent "\n" "<br>" }

/-- The body `handleGenerateReview` of src/unnamed/part_001 posts:
topic, review type (`systematic` when no radio is checked) and depth
(`comprehensive` when none is checked). -/
def enhancedReviewBody (s : AppState) : Json :=
  .obj [("topic", .str (jsTrim s.reviewTopicInput)),
        ("review_type", .str (match s.reviewTypeChecked with
          | some v => v
          | none => "systematic")),
        ("depth", .str (match s.reviewDepthChecked with
          | some v => v
          | none => "comprehensive"))]

/-- `handleGenerateReview(event)` of src/unnamed/part_001: resets the
panels and the draft history, posts topic, review type and depth to
`/api/generate_enhanced_review`, walks the returned phases through
`processReviewPhases`, pushes `result.final_review || default` as the
first draft, renders the enhanced draft viewer and copies the review to
the writing assistant; an error is caught, logged, added to the progress
log, alerted and reflected in the phase indicator (a JSON-`null` ok
body throws the TypeError at `result.process` into the same catch);
`finally` clears the loading state.  As in the src/index.js variant, a truthy non-string
`final_review` is pushed and then `.replace` throws, landing in the catch
(the model does not record the junk entry, `draftHistory` being
`string[]`). -/
def handleGenerateReview (env : Env) (b : Backend) (s : AppState) : AppState × List Event :=
  let topic := jsTrim s.reviewTopicInput
  if topic == "" then (s, [])
  else if s.documents.length == 0 then (s, [.alert "Please add some documents first!"])
  else
    let s0 := { s with progressHidden := false, progressLog := ([] : List String),
                       reviewDraftOutput := "", draftButtons := ([] : List DraftButton),
                       draftHistory := ([] : List String) }
    let s1 := setLoading s0 true "Initializing enhanced literature review generation..."
    let s2 := addProgressLog s1
      "<strong>Phase 1:</strong> Initializing enhanced GraphRAG literature review system..."
    let s3 := updatePhaseIndicator s2 "Scoping and Question Development" 15
    let onErr := fun (e : JsError) (sc : AppState) (evs : List Event) =>
      (setLoading
         (updatePhaseIndicator (addProgressLog sc ("❌ Error: " ++ e.message)) "Error Occurred" 0)
         false "Processing...",
       evs ++ [.consoleError ("Error generating enhanced review: " ++ e.message),
               .alert "Error generating enhanced literature review."])
    match apiCall b "/generate_enhanced_review" "POST" (some (enhancedReviewBody s)) with
    | (.error e, evs) => onErr e s3 evs
    | (.ok .null, evs) => onErr (.typeErr (nullReadMsg "process")) s3 evs
    | (.ok result, evs) =>
      let process : Option Json := result.getField "process"
      let phasesVal : Option Json :=
        match process with
        | some v =>
          if v.truthy then
            match v.getField "phases" with
            | some w => if w.truthy then some w else none
            | none => none
          else none
        | none => none
      let afterPhases : Except JsError AppState :=
        match phasesVal with
        | some ph => processReviewPhases env ph s3
        | none => .ok s3
      match afterPhases with
      | .error e => onErr e s3 evs
      | .ok s4 =>
        let finalReviewR : Except JsError String :=
          match result.getField "final_review" with
          | some (.str f) =>
            if !(f == "") then .ok f
            else .ok "Review generation completed but no content received."
          | some v =>
            if v.truthy then .error (.typeErr env.typeErrMsg)
            else .ok "Review generation completed but no content received."
          | none => .ok "Review generation completed but no content received."
        match finalReviewR with
        | .error e => onErr e s4 evs
        | .ok finalReview =>
          let s5 := { s4 with draftHistory := s4.draftHistory ++ [finalReview],
                              reviewDraftOutput := jsReplaceAll finalReview "\n" "<br>" }
          let s6 := renderEnhancedDraftViewer process s5
          let s7 := { s6 with writingEditorHtml := jsReplaceAll finalReview "\n" "<br>",
                              writingEditorText :=
                                env.innerTextOf (jsReplaceAll finalReview "\n" "<br>"),
                              writingAssistantHidden := false }
          let s8 := addProgressLog s7
            "<strong>Complete!</strong> Enhanced literature review ready for editing."
          let s9 := updatePhaseIndicator s8 "Review Complete" 100
          let s10 := { s9 with sectionRefinementHidden := false }
          (setLoading s10 false "Processing...", evs)

/-- The body `handleSectionRefinement` posts: the current section with
`<br>` turned back into newlines, the refinement type and the trimmed
feedback. -/
def refineBody (refinementType : String) (s : AppState) : Json :=
  .obj [("section_content", .str (jsReplaceAll s.reviewDraftOutput "<br>" "\n")),
        ("refinement_type", .str refinementType),
        ("feedback", .str (jsTrim s.refinementFeedback))]

/-- `handleSectionRefinement(refinementType)` of src/unnamed/part_001:
posts the current section (with `<br>` turned back into newlines), the
refinement type and the feedback to `/api/refine_review_section`, then
shows the refined section and logs the improvements; an error (including
a TypeError from `result.refined_section.replace` on a non-string) is
caught, logged and alerted; `finally` clears the loading state. -/
def handleSectionRefinement (env : Env) (b : Backend) (refinementType : String)
    (s : AppState) : AppState × List Event :=
  let currentSection := s.reviewDraftOutput
  if currentSection == "" then (s, [.alert "No section content to refine."])
  else
    let s0 := setLoading s true ("Applying " ++ refinementType ++ " refinement...")
    let onErr := fun (e : JsError) (evs : List Event) =>
      (setLoading s0 false "Processing...",
       evs ++ [.consoleError ("Error refining section: " ++ e.message),
               .alert ("Error applying refinement: " ++ e.message)])
    match apiCall b "/refine_review_section" "POST" (some (refineBody refinementType s)) with
    | (.error e, evs) => onErr e evs
    | (.ok result, evs) =>
      match result.getField "refined_section" with
      | some (.str rs) =>
        let s1 := { s0 with reviewDraftOutput := jsReplaceAll rs "\n" "<br>",
                            writingEditorHtml := jsReplaceAll rs "\n" "<br>",
                            writingEditorText := env.innerTextOf (jsReplaceAll rs "\n" "<br>"),
                            refinementFeedback := "" }
        let s2 := addProgressLog s1 ("<strong>Refinement Applied:</strong> " ++ refinementType)
        let s3 := addProgressLog s2
          ("📈 Improvements: " ++ jsValuesJoined (result.getField "improvements_made"))
        (setLoading s3 false "Processing...", evs)
      | _ => onErr (.typeErr env.typeErrMsg) evs

end P1

/-- Number of fetches in a trace that target the given URL. -/
def countUrl (evs : List Event) (u : String) : Nat :=
  ((fetchedReqs evs).filter fun r => r.url == u).length

/-- A concrete environment used by the witness instances. -/
def envW : Env :=
  { formatDate := fun _ => "date", nowMs := 0,
    innerTextOf := fun h => h, typeErrMsg := "TypeError" }

/-- A concrete page state used by the witness instances: fresh page with
one loaded document, a pending question, topic and editor text. -/
def stateW : AppState :=
  { isLoading := false, documents := [.obj [("filename", .str "a.txt")]],
    currentFileName := "", draftHistory := [],
    articleInput := "some article text", fileInputValue := "", fileNameDisplay := "",
    loaderHidden := true, loaderText := "", processBtnDisabled := false,
    fileInputDisabled := false, generateBtnDisabled := false, analyzeBtnDisabled := false,
    similarityBtnDisabled := false, questionInputDisabled := false, chatBtnDisabled := false,
    knowledgeList := [], kbContainerHidden := true, litReviewHidden := true, qaHidden := true,
    progressHidden := true, progressLog := [], reviewDraftOutput := "section text",
    draftButtons := [], chatMessages := [], suggestionsPanel := "",
    writingEditorHtml := "essay", writingEditorText := "essay",
    writingAssistantHidden := true, questionInput := "why?", reviewTopicInput := "topic",
    reviewLengthChecked := none, reviewTypeChecked := none, reviewDepthChecked := none,
    refinementFeedback := "", sectionRefinementHidden := true, currentPhaseText := "",
    phaseProgressWidth := 0 }

/-- A backend that answers every request successfully with a body
holding `answer`, `final_review`, `refined_section`, `status: ready` and
an empty `documents` array. -/
def backendOk : Backend := fun _ =>
  { ok := true, status := 200,
    body := some (.obj
      [("answer", .str "hello\nworld"), ("final_review", .str "review text"),
       ("refined_section", .str "refined"), ("status", .str "ready"),
       ("documents", .arr [])]),
    parseFailMsg := "bad json" }

/-- A backend that fails every request with status 500 and an error body
carrying a `message`. -/
def backendFail : Backend := fun _ =>
  { ok := false, status := 500,
    body := some (.obj [("message", .str "boom")]), parseFailMsg := "bad json" }

/-- C7: `renderDocuments` clears the knowledge list and appends exactly
one card per document in list order, each card built by `docCard` from
the document's `filename`, `chunks`, `processed_at` and `path` fields;
rendering twice in a row yields the same page state as rendering once. -/
theorem renderDocuments_cards_idempotent (env : Env) (s : AppState) :
    (renderDocuments env s).knowledgeList = s.documents.map (docCard env) ∧
    renderDocuments env (renderDocuments env s) = renderDocuments env s := by
  constructor
  · simp only [renderDocuments]
    split <;> rfl
  · by_cases h : s.documents.length > 0 <;>
      simp [renderDocuments, h]

/-- The request `apiCall(endpoint, method, data)` issues. -/
def apiReq (endpoint method : String) (data : Option Json) : ApiRequest :=
  ⟨"/api" ++ endpoint, method, data⟩

/-- The Error message thrown for a non-ok response whose parsed body is
the (non-null) JSON value `j`, as the (amended) C9 describes it: the
string coercion of a truthy `message` field, else `HTTP <status>`. -/
def bodyErrMsg (j : Json) (status : Int) : String :=
  match j.getField "message" with
  | some v => if v.truthy then v.toStr else "HTTP " ++ toString status
  | none => "HTTP " ++ toString status

/-- A backend whose response is ok but whose body is not parseable JSON
(`response.json()` rejects). -/
def backendOkBadBody : Backend := fun _ =>
  { ok := true, status := 200, body := none, parseFailMsg := "Unexpected token" }

/-- C9, counterexample to the claim as stated: on an ok response whose
body is not parseable JSON, `apiCall` does not return the parsed body —
`return response.json()` propagates the parse rejection — so `apiCall`
does not return a value exactly when the response is ok. -/
theorem apiCall_ok_response_can_throw :
    (backendOkBadBody (apiReq "/status" "GET" none)).ok = true ∧
    (apiCall backendOkBadBody "/status" "GET" none).1 =
      Except.error (.jsonSyntax "Unexpected token") :=
  ⟨rfl, rfl⟩

/-- C9 (amended): `apiCall` returns the parsed JSON body exactly when the
response is ok and its body parses (an ok response with an unparseable
body propagates the JSON parse rejection); a non-ok response whose body
parses to JSON `null` throws the TypeError raised by reading
`errorData.message` on `null`; any other non-ok response throws an
`Error` whose message is the `message` field of the body when truthy,
`HTTP <status>` when the body is (non-null) JSON without a truthy
`message`, and `Unknown error` when the body cannot be parsed as JSON. -/
theorem apiCall_result_spec (b : Backend) (e m : String) (d : Option Json) :
    ((b (apiReq e m d)).ok = true →
      (∀ j, (b (apiReq e m d)).body = some j → (apiCall b e m d).1 = Except.ok j) ∧
      ((b (apiReq e m d)).body = none →
        (apiCall b e m d).1 =
          Except.error (.jsonSyntax (b (apiReq e m d)).parseFailMsg))) ∧
    ((b (apiReq e m d)).ok = false →
      ((b (apiReq e m d)).body = some Json.null →
        (apiCall b e m d).1 = Except.error (.typeErr (nullReadMsg "message"))) ∧
      (∀ j, (b (apiReq e m d)).body = some j → ¬ j = Json.null →
        (apiCall b e m d).1 =
          Except.error (.error (bodyErrMsg j (b (apiReq e m d)).status))) ∧
      ((b (apiReq e m d)).body = none →
        (apiCall b e m d).1 = Except.error (.error "Unknown error"))) := by
  constructor
  · intro hok
    constructor
    · intro j hb
      simp [apiCall, apiReq] at *
      simp [hok, hb]
    · intro hb
      simp [apiCall, apiReq] at *
      simp [hok, hb]
  · intro hok
    refine ⟨?_, ?_, ?_⟩
    · intro hb
      simp [apiCall, apiReq] at *
      simp [hok, hb]
    · intro j hb hj
      cases j
      case null => exact absurd rfl hj
      all_goals
        simp [apiCall, apiReq, bodyErrMsg] at *
      all_goals
        simp [hok, hb]
    · intro hb
      simp [apiCall, apiReq] at *
      simp [hok, hb, Json.getField, Json.truthy]
      try rfl

/-- Witness for C9: the amended theorem applied to the failing backend,
whose error body is a (non-null) JSON object. -/
theorem apiCall_result_spec_witness :
    (apiCall backendFail "/query" "POST" none).1 =
      Except.error (.error (bodyErrMsg (.obj [("message", .str "boom")])
        (backendFail (apiReq "/query" "POST" none)).status)) :=
  (((apiCall_result_spec backendFail "/query" "POST" none).2 rfl).2.1
    (.obj [("message", .str "boom")]) rfl (fun h => Json.noConfusion h))

/-- C10, counterexample to the claim as stated: an unparseable stored
index does not default to 0 — `parseInt('x')` is `NaN`, the array lookup
is `undefined`, and the fallback text is shown instead of the draft at
index 0. -/
theorem draftClick_unparseable_shows_fallback :
    (draftVersionClick true 0 (some "x")
        { stateW with draftHistory := ["hello"] }).reviewDraftOutput =
      "Could not load this version." ∧
    ¬ (draftVersionClick true 0 (some "x")
        { stateW with draftHistory := ["hello"] }).reviewDraftOutput = "hello" :=
  ⟨rfl, by decide⟩

/-- C10 (amended): clicking a draft version button never faults (the
listener is a total state update) and, for every draft-history array: a
missing or empty stored index behaves exactly like the stored index `0`;
an unparseable stored index shows the fallback text; a parsed index that
is negative or at least the array length shows the fallback text; an
in-bounds index whose draft is the empty string (falsy) shows the
fallback text; and an in-bounds index with a non-empty draft shows that
draft with newlines replaced by `<br>`. -/
theorem draftVersionClick_spec (pos : Nat) (s : AppState) :
    (draftVersionClick true pos none s = draftVersionClick true pos (some "0") s) ∧
    (draftVersionClick true pos (some "") s = draftVersionClick true pos (some "0") s) ∧
    (∀ v, ¬ v = "" → jsParseInt v = none →
      (draftVersionClick true pos (some v) s).reviewDraftOutput =
        "Could not load this version.") ∧
    (∀ v i, ¬ v = "" → jsParseInt v = some i →
      (i < 0 ∨ s.draftHistory.length ≤ i.toNat) →
      (draftVersionClick true pos (some v) s).reviewDraftOutput =
        "Could not load this version.") ∧
    (∀ v i, ¬ v = "" → jsParseInt v = some i → 0 ≤ i →
      s.draftHistory[i.toNat]? = some "" →
      (draftVersionClick true pos (some v) s).reviewDraftOutput =
        "Could not load this version.") ∧
    (∀ v i t, ¬ v = "" → jsParseInt v = some i → 0 ≤ i →
      s.draftHistory[i.toNat]? = some t → ¬ t = "" →
      (draftVersionClick true pos (some v) s).reviewDraftOutput =
        jsReplaceAll t "\n" "<br>") := by
  have hfb : jsReplaceAll "Could not load this version." "\n" "<br>" =
      "Could not load this version." := by decide
  refine ⟨rfl, rfl, ?_, ?_, ?_, ?_⟩
  · intro v hv hp
    simp [draftVersionClick, hv, hp, hfb]
  · intro v i hv hp hoob
    rcases hoob with hneg | hlen
    · simp [draftVersionClick, hv, hp, hneg, hfb]
    · have hget : s.draftHistory[i.toNat]? = none := List.getElem?_eq_none hlen
      by_cases hneg : i < 0
      · simp [draftVersionClick, hv, hp, hneg, hfb]
      · simp [draftVersionClick, hv, hp, hneg, hget, hfb]
  · intro v i hv hp hpos hget
    have hneg : ¬ i < 0 := by omega
    simp [draftVersionClick, hv, hp, hneg, hget, hfb]
  · intro v i t hv hp hpos hget ht
    have hneg : ¬ i < 0 := by omega
    simp [draftVersionClick, hv, hp, hneg, hget, ht]

/-- Witness for C10: the amended theorem applied at an in-bounds index. -/
theorem draftVersionClick_spec_witness :
    (draftVersionClick true 0 (some "0")
        { stateW with draftHistory := ["hello"] }).reviewDraftOutput = "hello" := by
  have h := (draftVersionClick_spec 0 { stateW with draftHistory := ["hello"] }).2.2.2.2.2
    "0" 0 "hello" (by decide) (by decide) (by decide) (by decide) (by decide)
  exact h.trans (by decide)


/-- C8: every user-facing handler that sets the loading flag restores it:
whenever the guards pass (so `setLoading(true, ...)` runs), the run ends
with `isLoading = false` and the loader hidden, on success and on error
alike, because `setLoading(false)` sits in the `finally` of each
handler. -/
theorem handlers_restore_loading (env : Env) (b : Backend) (s : AppState) :
    (¬ jsTrim s.articleInput = "" →
      (handleProcessArticle env b s).1.isLoading = false ∧
      (handleProcessArticle env b s).1.loaderHidden = true) ∧
    (¬ jsTrim s.reviewTopicInput = "" → ¬ s.documents.length = 0 →
      (handleGenerateReview env b s).1.isLoading = false ∧
      (handleGenerateReview env b s).1.loaderHidden = true) ∧
    (¬ jsTrim s.reviewTopicInput = "" → ¬ s.documents.length = 0 →
      (P1.handleGenerateReview env b s).1.isLoading = false ∧
      (P1.handleGenerateReview env b s).1.loaderHidden = true) ∧
    (¬ jsTrim s.questionInput = "" → s.isLoading = false → ¬ s.documents.length = 0 →
      (handleAskQuestion b s).1.isLoading = false ∧
      (handleAskQuestion b s).1.loaderHidden = true) ∧
    (¬ jsTrim s.writingEditorText = "" →
      (handleAnalyzeText env b s).1.isLoading = false ∧
      (handleAnalyzeText env b s).1.loaderHidden = true) ∧
    (¬ jsTrim s.writingEditorText = "" →
      (handleSimilarityCheck b s).1.isLoading = false ∧
      (handleSimilarityCheck b s).1.loaderHidden = true) := by
  refine ⟨?_, ?_, ?_, ?_, ?_, ?_⟩
  · intro h1
    have hb1 : (jsTrim s.articleInput == "") = false := beq_eq_false_iff_ne.mpr h1
    simp only [handleProcessArticle, hb1, Bool.false_eq_true, if_false]
    split <;> simp [setLoading]
  · intro h1 h2
    have hb1 : (jsTrim s.reviewTopicInput == "") = false := beq_eq_false_iff_ne.mpr h1
    have hb2 : (s.documents.length == 0) = false := beq_eq_false_iff_ne.mpr h2
    simp only [handleGenerateReview, hb1, hb2, Bool.false_eq_true, if_false]
    split <;> (try split) <;> simp [setLoading]
  · intro h1 h2
    have hb1 : (jsTrim s.reviewTopicInput == "") = false := beq_eq_false_iff_ne.mpr h1
    have hb2 : (s.documents.length == 0) = false := beq_eq_false_iff_ne.mpr h2
    simp only [P1.handleGenerateReview, hb1, hb2, Bool.false_eq_true, if_false]
    split <;> (try split) <;> (try split) <;> simp [setLoading]
  · intro h1 h2 h3
    have hb1 : (jsTrim s.questionInput == "") = false := beq_eq_false_iff_ne.mpr h1
    have hb3 : (s.documents.length == 0) = false := beq_eq_false_iff_ne.mpr h3
    simp only [handleAskQuestion, hb1, h2, hb3, Bool.or_self, Bool.or_false,
      Bool.false_or, Bool.false_eq_true, if_false]
    split <;> simp [setLoading]
  · intro h1
    have hb1 : (jsTrim s.writingEditorText == "") = false := beq_eq_false_iff_ne.mpr h1
    simp only [handleAnalyzeText, hb1, Bool.false_eq_true, if_false]
    split <;> (try split) <;> simp [setLoading]
  · intro h1
    have hb1 : (jsTrim s.writingEditorText == "") = false := beq_eq_false_iff_ne.mpr h1
    simp only [handleSimilarityCheck, hb1, Bool.false_eq_true, if_false]
    split <;> simp [setLoading]

/-- Witness for C8: the theorem applied to the witness state with the
failing backend. -/
theorem handlers_restore_loading_witness :
    (handleAskQuestion backendFail stateW).1.isLoading = false :=
  (((handlers_restore_loading envW backendFail stateW).2.2.2.1
    (by decide) (by decide) (by decide)).1)

/-- Each call of `apiCall` performs exactly one fetch, of the request
built from its endpoint, method and data, regardless of the response. -/
theorem apiCall_events (b : Backend) (e m : String) (d : Option Json) :
    (apiCall b e m d).2 = [.fetch (apiReq e m d)] := by
  simp only [apiCall, apiReq]
  split <;> (try split) <;> rfl

theorem fetchedReqs_nil : fetchedReqs [] = [] := rfl

theorem fetchedReqs_append (l1 l2 : List Event) :
    fetchedReqs (l1 ++ l2) = fetchedReqs l1 ++ fetchedReqs l2 :=
  List.filterMap_append l1 l2 _

theorem fetchedReqs_fetch (r : ApiRequest) (l : List Event) :
    fetchedReqs (.fetch r :: l) = r :: fetchedReqs l := rfl

theorem fetchedReqs_alert (m : String) (l : List Event) :
    fetchedReqs (.alert m :: l) = fetchedReqs l := rfl

theorem fetchedReqs_console (m : String) (l : List Event) :
    fetchedReqs (.consoleError m :: l) = fetchedReqs l := rfl

/-- The event list bound by a match on `apiCall` carries exactly the one
fetch of that call. -/
theorem fetchedReqs_of_eq {b : Backend} {e m : String} {d : Option Json}
    {res : Except JsError Json} {evs : List Event}
    (h : apiCall b e m d = (res, evs)) : fetchedReqs evs = [apiReq e m d] := by
  have hev := apiCall_events b e m d
  rw [h] at hev
  have hevs : evs = [.fetch (apiReq e m d)] := hev
  rw [hevs]
  rfl

/-- `loadDocuments` always issues exactly the `/api/documents` fetch. -/
theorem loadDocuments_fetches (env : Env) (b : Backend) (s : AppState) :
    fetchedReqs (loadDocuments env b s).2 = [apiReq "/documents" "GET" none] := by
  cases hpair : apiCall b "/documents" "GET" none with
  | mk res evs =>
    have hevs := fetchedReqs_of_eq hpair
    cases res with
    | ok result =>
      cases result <;>
        simp [loadDocuments, hpair, hevs, fetchedReqs_append, fetchedReqs_console,
          fetchedReqs_nil]
    | error e =>
      simp [loadDocuments, hpair, fetchedReqs_append, fetchedReqs_console,
        fetchedReqs_nil, hevs]

/-- C3, counterexample to the claim as stated: a successful
`handleProcessArticle` run issues two HTTP requests (the upload and the
document-list reload), not exactly one. -/
theorem processArticle_two_fetches :
    (fetchedReqs (handleProcessArticle envW backendOk stateW).2).length = 2 ∧
    ¬ (fetchedReqs (handleProcessArticle envW backendOk stateW).2).length = 1 :=
  ⟨rfl, by decide⟩

/-- C3 (amended): generate review (both variants), ask question, analyze
text and similarity check each issue exactly one HTTP request per
invocation that passes the guards; process article issues exactly one
`add_document` request, followed by exactly one document-list reload
request when that call returns successfully, and by no further request
when it throws. -/
theorem handlers_single_request (env : Env) (b : Backend) (s : AppState) :
    (¬ jsTrim s.reviewTopicInput = "" → ¬ s.documents.length = 0 →
      (fetchedReqs (handleGenerateReview env b s).2).length = 1) ∧
    (¬ jsTrim s.reviewTopicInput = "" → ¬ s.documents.length = 0 →
      (fetchedReqs (P1.handleGenerateReview env b s).2).length = 1) ∧
    (¬ jsTrim s.questionInput = "" → s.isLoading = false → ¬ s.documents.length = 0 →
      (fetchedReqs (handleAskQuestion b s).2).length = 1) ∧
    (¬ jsTrim s.writingEditorText = "" →
      (fetchedReqs (handleAnalyzeText env b s).2).length = 1) ∧
    (¬ jsTrim s.writingEditorText = "" →
      (fetchedReqs (handleSimilarityCheck b s).2).length = 1) ∧
    (¬ jsTrim s.articleInput = "" →
      (apiCall b "/add_document" "POST" (some (addDocBody env s))).1.isOk = true →
      (fetchedReqs (handleProcessArticle env b s).2).length = 2) ∧
    (¬ jsTrim s.articleInput = "" →
      (apiCall b "/add_document" "POST" (some (addDocBody env s))).1.isOk = false →
      (fetchedReqs (handleProcessArticle env b s).2).length = 1) := by
  refine ⟨?_, ?_, ?_, ?_, ?_, ?_, ?_⟩
  · intro h1 h2
    have hb1 : (jsTrim s.reviewTopicInput == "") = false := beq_eq_false_iff_ne.mpr h1
    have hb2 : (s.documents.length == 0) = false := beq_eq_false_iff_ne.mpr h2
    simp only [handleGenerateReview, hb1, hb2, Bool.false_eq_true, if_false]
    split <;> (try split) <;>
      (have hevs := fetchedReqs_of_eq (by assumption)
       simp [fetchedReqs_append, fetchedReqs_console, fetchedReqs_alert,
         fetchedReqs_nil, hevs])
  · intro h1 h2
    have hb1 : (jsTrim s.reviewTopicInput == "") = false := beq_eq_false_iff_ne.mpr h1
    have hb2 : (s.documents.length == 0) = false := beq_eq_false_iff_ne.mpr h2
    simp only [P1.handleGenerateReview, hb1, hb2, Bool.false_eq_true, if_false]
    split <;> (try split) <;> (try split) <;>
      (have hevs := fetchedReqs_of_eq (by assumption)
       simp [fetchedReqs_append, fetchedReqs_console, fetchedReqs_alert,
         fetchedReqs_nil, hevs])
  · intro h1 h2 h3
    have hb1 : (jsTrim s.questionInput == "") = false := beq_eq_false_iff_ne.mpr h1
    have hb3 : (s.documents.length == 0) = false := beq_eq_false_iff_ne.mpr h3
    simp only [handleAskQuestion, hb1, h2, hb3, Bool.or_false, Bool.false_or,
      Bool.false_eq_true, if_false]
    split <;>
      (have hevs := fetchedReqs_of_eq (by assumption)
       simp [fetchedReqs_append, fetchedReqs_console, fetchedReqs_nil, hevs])
  · intro h1
    have hb1 : (jsTrim s.writingEditorText == "") = false := beq_eq_false_iff_ne.mpr h1
    simp only [handleAnalyzeText, hb1, Bool.false_eq_true, if_false]
    split <;> (try split) <;>
      (have hevs := fetchedReqs_of_eq (by assumption)
       simp [fetchedReqs_append, fetchedReqs_console, fetchedReqs_nil, hevs])
  · intro h1
    have hb1 : (jsTrim s.writingEditorText == "") = false := beq_eq_false_iff_ne.mpr h1
    simp only [handleSimilarityCheck, hb1, Bool.false_eq_true, if_false]
    split <;>
      (have hevs := fetchedReqs_of_eq (by assumption)
       simp [fetchedReqs_append, fetchedReqs_console, fetchedReqs_alert,
         fetchedReqs_nil, hevs])
  · intro h1 hok
    have hb1 : (jsTrim s.articleInput == "") = false := beq_eq_false_iff_ne.mpr h1
    cases hpair : apiCall b "/add_document" "POST" (some (addDocBody env s)) with
    | mk res evs =>
      rw [hpair] at hok
      have hevs := fetchedReqs_of_eq hpair
      cases res with
      | ok j =>
        simp only [handleProcessArticle, hb1, Bool.false_eq_true, if_false, hpair]
        simp [fetchedReqs_append, fetchedReqs_alert, fetchedReqs_nil, hevs,
          loadDocuments_fetches]
      | error e => exact Bool.noConfusion hok
  · intro h1 hok
    have hb1 : (jsTrim s.articleInput == "") = false := beq_eq_false_iff_ne.mpr h1
    cases hpair : apiCall b "/add_document" "POST" (some (addDocBody env s)) with
    | mk res evs =>
      rw [hpair] at hok
      have hevs := fetchedReqs_of_eq hpair
      cases res with
      | ok j => exact Bool.noConfusion hok
      | error e =>
        simp only [handleProcessArticle, hb1, Bool.false_eq_true, if_false, hpair]
        simp [fetchedReqs_append, fetchedReqs_console, fetchedReqs_alert,
          fetchedReqs_nil, hevs]

/-- Witness for C3: the amended theorem applied to the ask-question
handler on the witness state. -/
theorem handlers_single_request_witness :
    (fetchedReqs (handleAskQuestion backendOk stateW).2).length = 1 :=
  (handlers_single_request envW backendOk stateW).2.2.1
    (by decide) (by decide) (by decide)

/-- C4: index 0 of the draft history always holds the first draft of the
current generation run: `handleGenerateReview` empties the array before
generating, so after a successful run the history is exactly `[answer]`
and the rendered viewer labels the button at index 0 `Draft` (and marks
it active); after a failed run the history is empty; the part_001
variant likewise leaves `[final_review]` at index 0; and for any
non-empty history `renderDraftViewer` labels the first button `Draft`. -/
theorem draftHistory_first_draft (env : Env) (b : Backend) (s : AppState) :
    (¬ s.draftHistory.length = 0 →
      (renderDraftViewer s).draftButtons.head?.map DraftButton.label = some "Draft") ∧
    (¬ jsTrim s.reviewTopicInput = "" → ¬ s.documents.length = 0 →
      ∀ res evs,
        apiCall b "/query" "POST" (some (queryBody (reviewPrompt s))) = (res, evs) →
        (∀ j a, res = Except.ok j → j.getField "answer" = some (.str a) →
          (handleGenerateReview env b s).1.draftHistory = [a] ∧
          (handleGenerateReview env b s).1.draftButtons =
            [{ datasetIndex := some "0", datasetSection := none,
               label := "Draft", active := true }]) ∧
        (∀ e, res = Except.error e →
          (handleGenerateReview env b s).1.draftHistory = [])) ∧
    (¬ jsTrim s.reviewTopicInput = "" → ¬ s.documents.length = 0 →
      ∀ res evs,
        apiCall b "/generate_enhanced_review" "POST" (some (P1.enhancedReviewBody s)) =
          (res, evs) →
        ∀ j f, res = Except.ok j → j.getField "process" = none →
          j.getField "final_review" = some (.str f) → ¬ f = "" →
          (P1.handleGenerateReview env b s).1.draftHistory = [f]) := by
  refine ⟨?_, ?_, ?_⟩
  · intro hlen
    have hb : (s.draftHistory.length == 0) = false := beq_eq_false_iff_ne.mpr hlen
    cases hl : s.draftHistory.length with
    | zero => exact absurd hl hlen
    | succ n =>
      simp [renderDraftViewer, hb, hl, List.range_succ_eq_map]
  · intro h1 h2 res evs hpair
    have hb1 : (jsTrim s.reviewTopicInput == "") = false := beq_eq_false_iff_ne.mpr h1
    have hb2 : (s.documents.length == 0) = false := beq_eq_false_iff_ne.mpr h2
    constructor
    · intro j a hres hans
      subst hres
      simp only [handleGenerateReview, hb1, hb2, Bool.false_eq_true, if_false, hpair, hans]
      exact ⟨rfl, rfl⟩
    · intro e hres
      subst hres
      simp only [handleGenerateReview, hb1, hb2, Bool.false_eq_true, if_false, hpair]
      rfl
  · intro h1 h2 res evs hpair j f hres hproc hfin hne
    subst hres
    have hb1 : (jsTrim s.reviewTopicInput == "") = false := beq_eq_false_iff_ne.mpr h1
    have hb2 : (s.documents.length == 0) = false := beq_eq_false_iff_ne.mpr h2
    have hbf : (f == "") = false := beq_eq_false_iff_ne.mpr hne
    cases j
    case obj fields =>
      simp only [P1.handleGenerateReview, hb1, hb2, Bool.false_eq_true, if_false, hpair,
        hproc, hfin, hbf, Bool.not_false, if_true]
      rfl
    all_goals simp [Json.getField] at hfin

/-- Witness for C4: the amended theorem applied to the witness state and
the successful backend. -/
theorem draftHistory_first_draft_witness :
    (handleGenerateReview envW backendOk stateW).1.draftHistory = ["hello\nworld"] :=
  (((draftHistory_first_draft envW backendOk stateW).2.1 (by decide) (by decide)
    _ _ rfl).1 _ "hello\nworld" rfl rfl).1

/-- The upload request a batch file produces, when its read succeeds. -/
def batchReqOf (f : FileEntry) : Option ApiRequest :=
  match batchRead f with
  | .ok body => some (apiReq "/add_document" "POST" (some body))
  | .error _ => none

/-- A successfully read batch file's body carries its filename. -/
theorem batchRead_filename {f : FileEntry} {body : Json}
    (h : batchRead f = .ok body) :
    body.getField "filename" = some (.str f.name) := by
  unfold batchRead at h
  by_cases hc : (fileExtensionOf f.name == "pdf" || fileExtensionOf f.name == "docx" ||
      fileExtensionOf f.name == "doc") = true
  · rw [if_pos hc] at h
    cases hr : f.readDataUrl with
    | ok base64 =>
      simp only [hr] at h
      injection h with h1
      subst h1
      rfl
    | error m =>
      simp only [hr] at h
      exact Except.noConfusion h
  · rw [if_neg hc] at h
    cases hr : f.readText with
    | ok t =>
      simp only [hr] at h
      injection h with h1
      subst h1
      rfl
    | error m =>
      simp only [hr] at h
      exact Except.noConfusion h

/-- The fetches of one batch iteration: exactly the upload request when
the read succeeded, none otherwise. -/
theorem stepEvs_fetches (b : Backend) (f : FileEntry) :
    fetchedReqs (stepEvs b f) =
      match batchRead f with
      | .ok body => [apiReq "/add_document" "POST" (some body)]
      | .error _ => [] := by
  unfold stepEvs
  cases hr : batchRead f with
  | ok body =>
    cases hpair : apiCall b "/add_document" "POST" (some body) with
    | mk res evs =>
      have hevs := fetchedReqs_of_eq hpair
      cases res <;>
        simp [hpair, fetchedReqs_append, fetchedReqs_console, fetchedReqs_alert,
          fetchedReqs_nil, hevs]
  | error m => rfl

/-- Each batch iteration leaves a per-file trace: the upload fetch when
the file was read, or the `Continuing with next file.` alert when
reading or uploading failed (a read failure produces only the alert). -/
theorem stepEvs_marker (b : Backend) (f : FileEntry) :
    (∃ body, batchRead f = .ok body ∧
      Event.fetch (apiReq "/add_document" "POST" (some body)) ∈ stepEvs b f) ∨
    Event.alert (batchAlertMsg f.name) ∈ stepEvs b f := by
  unfold stepEvs
  cases hr : batchRead f with
  | ok body =>
    left
    refine ⟨body, rfl, ?_⟩
    cases hpair : apiCall b "/add_document" "POST" (some body) with
    | mk res evs =>
      have hev := apiCall_events b "/add_document" "POST" (some body)
      rw [hpair] at hev
      have hevs : evs = [.fetch (apiReq "/add_document" "POST" (some body))] := hev
      cases res <;> simp [hpair, hevs]
  | error m =>
    right
    simp

/-- The fetches of the whole batch loop, in order: one upload per
successfully read file. -/
theorem batchLoop_fetches (b : Backend) (total : Nat) :
    ∀ (i : Nat) (files : List FileEntry) (s : AppState),
      fetchedReqs (batchLoop b total i files s).2 = files.filterMap batchReqOf := by
  intro i files
  induction files generalizing i with
  | nil => intro s; rfl
  | cons f rest ih =>
    intro s
    simp only [batchLoop, batchStep, fetchedReqs_append, List.filterMap_cons,
      stepEvs_fetches, ih, batchReqOf]
    cases hr : batchRead f <;> simp

/-- Every file of the batch leaves its marker in the loop's trace. -/
theorem batchLoop_markers (b : Backend) (total : Nat) :
    ∀ (i : Nat) (files : List FileEntry) (s : AppState) (f : FileEntry), f ∈ files →
      (∃ body, batchRead f = .ok body ∧
        Event.fetch (apiReq "/add_document" "POST" (some body)) ∈
          (batchLoop b total i files s).2) ∨
      Event.alert (batchAlertMsg f.name) ∈ (batchLoop b total i files s).2 := by
  intro i files
  induction files generalizing i with
  | nil => intro s f hf; cases hf
  | cons g rest ih =>
    intro s f hf
    rcases List.mem_cons.mp hf with hfg | hfr
    · subst hfg
      rcases stepEvs_marker b f with ⟨body, hr, hmem⟩ | hmem
      · exact Or.inl ⟨body, hr, by simp [batchLoop, batchStep, hmem]⟩
      · exact Or.inr (by simp [batchLoop, batchStep, hmem])
    · rcases ih (i + 1) (batchStep b total i g s).1 f hfr with ⟨body, hr, hmem⟩ | hmem
      · exact Or.inl ⟨body, hr, by simp [batchLoop, hmem]⟩
      · exact Or.inr (by simp [batchLoop, hmem])

/-- Every batch upload targets `/api/add_document`. -/
theorem batchReqOf_url {f : FileEntry} {r : ApiRequest}
    (h : batchReqOf f = some r) : r.url = "/api/add_document" := by
  unfold batchReqOf at h
  cases hr : batchRead f with
  | ok body =>
    rw [hr] at h
    injection h with h1
    subst h1
    rfl
  | error m =>
    rw [hr] at h
    exact Option.noConfusion h

/-- C2: a failure while reading or uploading one file of a multi-file
batch does not abort the batch: every file of the batch leaves its own
trace (its upload fetch, or its `Continuing with next file.` alert);
after the loop the document list is reloaded exactly once (`handle...`
issues exactly one `/api/documents` fetch) and the loading state is
cleared. -/
theorem batch_upload_continues (env : Env) (b : Backend) (files : List FileEntry)
    (s : AppState) (hlen : 2 ≤ files.length) :
    (∀ f ∈ files,
      (∃ body, batchRead f = .ok body ∧
        Event.fetch (apiReq "/add_document" "POST" (some body)) ∈
          (handleFileSelect env b files s).2) ∨
      Event.alert (batchAlertMsg f.name) ∈ (handleFileSelect env b files s).2) ∧
    countUrl (handleFileSelect env b files s).2 "/api/documents" = 1 ∧
    (handleFileSelect env b files s).1.isLoading = false ∧
    (handleFileSelect env b files s).1.loaderHidden = true := by
  match files, hlen with
  | f1 :: f2 :: rest, _ =>
    refine ⟨?_, ?_, rfl, rfl⟩
    · intro f hf
      rcases batchLoop_markers b (f1 :: f2 :: rest).length 0 (f1 :: f2 :: rest)
          { s with fileNameDisplay :=
              "Processing " ++ toString (f1 :: f2 :: rest).length ++ " files..." }
          f hf with ⟨body, hr, hmem⟩ | hmem
      · refine Or.inl ⟨body, hr, ?_⟩
        simp only [List.length_cons] at hmem
        simp [handleFileSelect, hmem]
      · refine Or.inr ?_
        simp only [List.length_cons] at hmem
        simp [handleFileSelect, hmem]
    · have hbatch := batchLoop_fetches b (f1 :: f2 :: rest).length 0 (f1 :: f2 :: rest)
        { s with fileNameDisplay :=
            "Processing " ++ toString (f1 :: f2 :: rest).length ++ " files..." }
      simp only [handleFileSelect, countUrl, fetchedReqs_append, List.filter_append,
        List.length_append, hbatch, loadDocuments_fetches]
      have hzero : ∀ (fs : List FileEntry),
          (List.filter (fun r => r.url == "/api/documents") (fs.filterMap batchReqOf)) = [] := by
        intro fs
        induction fs with
        | nil => rfl
        | cons g gs ih =>
          cases hg : batchReqOf g with
          | none => simp [List.filterMap_cons, hg, ih]
          | some r =>
            have hu := batchReqOf_url hg
            simp [List.filterMap_cons, hg, ih, List.filter_cons, hu, apiReq]
      simp [hzero, apiReq]

/-- Two concrete files for the batch witness: the first one fails to
read, the second uploads. -/
def filesW : List FileEntry :=
  [⟨"bad.txt", "text/plain", .error "read failed", .error "read failed"⟩,
   ⟨"good.txt", "text/plain", .ok "file text", .ok "data:text"⟩]

/-- Witness for C2: the theorem applied to a two-file batch whose first
file fails, under the successful backend. -/
theorem batch_upload_continues_witness :
    countUrl (handleFileSelect envW backendOk filesW stateW).2 "/api/documents" = 1 :=
  (batch_upload_continues envW backendOk filesW stateW (by decide)).2.1

/-- The endpoint/method pairs of the fetches in a trace, in order. -/
def reqPairs (evs : List Event) : List (String × String) :=
  (fetchedReqs evs).map fun r => (r.url, r.method)

/-- The six endpoint/method pairs of the REST contract. -/
def endpointPairs : List (String × String) :=
  [("/api/status", "GET"), ("/api/documents", "GET"), ("/api/add_document", "POST"),
   ("/api/query", "POST"), ("/api/generate_enhanced_review", "POST"),
   ("/api/refine_review_section", "POST")]

/-- `handleProcessArticle` fetches nothing, or the upload, or the upload
followed by the document reload. -/
theorem processArticle_pairs (env : Env) (b : Backend) (s : AppState) :
    reqPairs (handleProcessArticle env b s).2 = [] ∨
    reqPairs (handleProcessArticle env b s).2 = [("/api/add_document", "POST")] ∨
    reqPairs (handleProcessArticle env b s).2 =
      [("/api/add_document", "POST"), ("/api/documents", "GET")] := by
  simp only [handleProcessArticle]
  split
  · left; rfl
  · split
    · right; right
      have hevs := fetchedReqs_of_eq (by assumption)
      simp only [reqPairs, fetchedReqs_append, fetchedReqs_alert, fetchedReqs_nil,
        hevs, loadDocuments_fetches]
      rfl
    · right; left
      have hevs := fetchedReqs_of_eq (by assumption)
      simp only [reqPairs, fetchedReqs_append, fetchedReqs_console, fetchedReqs_alert,
        fetchedReqs_nil, hevs]
      rfl

/-- `handleAskQuestion` fetches nothing or one `/api/query` POST. -/
theorem askQuestion_pairs (b : Backend) (s : AppState) :
    reqPairs (handleAskQuestion b s).2 = [] ∨
    reqPairs (handleAskQuestion b s).2 = [("/api/query", "POST")] := by
  simp only [handleAskQuestion]
  split
  · left; rfl
  · right
    split <;>
      (have hevs := fetchedReqs_of_eq (by assumption)
       simp only [reqPairs, fetchedReqs_append, fetchedReqs_console,
         fetchedReqs_nil, hevs]
       rfl)

/-- `handleGenerateReview` of src/index.js fetches nothing or one
`/api/query` POST. -/
theorem generateReview_pairs (env : Env) (b : Backend) (s : AppState) :
    reqPairs (handleGenerateReview env b s).2 = [] ∨
    reqPairs (handleGenerateReview env b s).2 = [("/api/query", "POST")] := by
  simp only [handleGenerateReview]
  split
  · left; rfl
  · split
    · left; rfl
    · right
      split <;> (try split) <;>
        (have hevs := fetchedReqs_of_eq (by assumption)
         simp only [reqPairs, fetchedReqs_append, fetchedReqs_console,
           fetchedReqs_alert, fetchedReqs_nil, hevs]
         rfl)

/-- `handleAnalyzeText` fetches nothing or one `/api/query` POST. -/
theorem analyzeText_pairs (env : Env) (b : Backend) (s : AppState) :
    reqPairs (handleAnalyzeText env b s).2 = [] ∨
    reqPairs (handleAnalyzeText env b s).2 = [("/api/query", "POST")] := by
  simp only [handleAnalyzeText]
  split
  · left; rfl
  · right
    split <;> (try split) <;>
      (have hevs := fetchedReqs_of_eq (by assumption)
       simp only [reqPairs, fetchedReqs_append, fetchedReqs_console,
         fetchedReqs_nil, hevs]
       rfl)

/-- `handleSimilarityCheck` fetches nothing or one `/api/query` POST. -/
theorem similarityCheck_pairs (b : Backend) (s : AppState) :
    reqPairs (handleSimilarityCheck b s).2 = [] ∨
    reqPairs (handleSimilarityCheck b s).2 = [("/api/query", "POST")] := by
  simp only [handleSimilarityCheck]
  split
  · left; rfl
  · right
    split <;>
      (have hevs := fetchedReqs_of_eq (by assumption)
       simp only [reqPairs, fetchedReqs_append, fetchedReqs_console,
         fetchedReqs_alert, fetchedReqs_nil, hevs]
       rfl)

/-- The part_001 `handleGenerateReview` fetches nothing or one
`/api/generate_enhanced_review` POST. -/
theorem enhancedReview_pairs (env : Env) (b : Backend) (s : AppState) :
    reqPairs (P1.handleGenerateReview env b s).2 = [] ∨
    reqPairs (P1.handleGenerateReview env b s).2 =
      [("/api/generate_enhanced_review", "POST")] := by
  simp only [P1.handleGenerateReview]
  split
  · left; rfl
  · split
    · left; rfl
    · right
      split <;> (try split) <;> (try split) <;>
        (have hevs := fetchedReqs_of_eq (by assumption)
         simp only [reqPairs, fetchedReqs_append, fetchedReqs_console,
           fetchedReqs_alert, fetchedReqs_nil, hevs]
         rfl)

/-- `handleSectionRefinement` fetches nothing or one
`/api/refine_review_section` POST. -/
theorem sectionRefinement_pairs (env : Env) (b : Backend) (t : String) (s : AppState) :
    reqPairs (P1.handleSectionRefinement env b t s).2 = [] ∨
    reqPairs (P1.handleSectionRefinement env b t s).2 =
      [("/api/refine_review_section", "POST")] := by
  simp only [P1.handleSectionRefinement]
  split
  · left; rfl
  · right
    split <;> (try split) <;>
      (have hevs := fetchedReqs_of_eq (by assumption)
       simp only [reqPairs, fetchedReqs_append, fetchedReqs_console,
         fetchedReqs_alert, fetchedReqs_nil, hevs]
       rfl)

/-- `loadDocuments` fetches exactly the document reload. -/
theorem loadDocuments_pairs (env : Env) (b : Backend) (s : AppState) :
    reqPairs (loadDocuments env b s).2 = [("/api/documents", "GET")] := by
  simp only [reqPairs, loadDocuments_fetches]
  rfl

/-- `checkSystemStatus` fetches the status request, followed by the
document reload when the system is ready. -/
theorem checkSystemStatus_pairs (env : Env) (b : Backend) (s : AppState) :
    reqPairs (checkSystemStatus env b s).2.2 = [("/api/status", "GET")] ∨
    reqPairs (checkSystemStatus env b s).2.2 =
      [("/api/status", "GET"), ("/api/documents", "GET")] := by
  simp only [checkSystemStatus]
  split
  · left
    have hevs := fetchedReqs_of_eq (by assumption)
    simp only [reqPairs, fetchedReqs_append, fetchedReqs_console, fetchedReqs_nil, hevs]
    rfl
  · split
    · split
      · right
        have hevs := fetchedReqs_of_eq (by assumption)
        simp only [reqPairs, fetchedReqs_append, hevs, loadDocuments_fetches]
        rfl
      · left
        have hevs := fetchedReqs_of_eq (by assumption)
        simp only [reqPairs, hevs]
        rfl
    · left
      have hevs := fetchedReqs_of_eq (by assumption)
      simp only [reqPairs, hevs]
      rfl
  · left
    have hevs := fetchedReqs_of_eq (by assumption)
    simp only [reqPairs, fetchedReqs_append, fetchedReqs_console, fetchedReqs_nil, hevs]
    rfl

/-- The single-file branch fetches nothing, or the upload, or the upload
followed by the document reload. -/
theorem singleFile_pairs (env : Env) (b : Backend) (file : FileEntry) (s : AppState) :
    reqPairs (handleSingleFile env b file s).2 = [] ∨
    reqPairs (handleSingleFile env b file s).2 = [("/api/add_document", "POST")] ∨
    reqPairs (handleSingleFile env b file s).2 =
      [("/api/add_document", "POST"), ("/api/documents", "GET")] := by
  simp only [handleSingleFile]
  split
  · split
    · left; rfl
    · split
      · right; left
        have hevs := fetchedReqs_of_eq (by assumption)
        simp only [reqPairs, fetchedReqs_append, fetchedReqs_console, fetchedReqs_alert,
          fetchedReqs_nil, hevs]
        rfl
      · right; right
        have hevs := fetchedReqs_of_eq (by assumption)
        simp only [reqPairs, fetchedReqs_append, fetchedReqs_alert, fetchedReqs_nil,
          hevs, loadDocuments_fetches]
        rfl
  · split
    · split
      · left; rfl
      · split
        · right; left
          have hevs := fetchedReqs_of_eq (by assumption)
          simp only [reqPairs, fetchedReqs_append, fetchedReqs_console, fetchedReqs_alert,
            fetchedReqs_nil, hevs]
          rfl
        · right; right
          have hevs := fetchedReqs_of_eq (by assumption)
          simp only [reqPairs, fetchedReqs_append, fetchedReqs_alert, fetchedReqs_nil,
            hevs, loadDocuments_fetches]
          rfl
    · split
      · left; rfl
      · left; rfl

/-- A produced batch request is the upload of its file's body. -/
theorem batchReqOf_shape {f : FileEntry} {r : ApiRequest}
    (h : batchReqOf f = some r) :
    ∃ body, batchRead f = .ok body ∧
      r = apiReq "/add_document" "POST" (some body) := by
  unfold batchReqOf at h
  cases hr : batchRead f with
  | ok body =>
    rw [hr] at h
    injection h with h1
    exact ⟨body, rfl, h1.symm⟩
  | error m =>
    rw [hr] at h
    exact Option.noConfusion h

/-- Every fetch of `handleFileSelect` targets one of the six endpoint
pairs, for any list of selected files. -/
theorem fileSelect_endpoints (env : Env) (b : Backend) (files : List FileEntry)
    (s : AppState) :
    ∀ p ∈ reqPairs (handleFileSelect env b files s).2, p ∈ endpointPairs := by
  intro p hp
  match files with
  | [] => cases hp
  | [f] =>
    have h := singleFile_pairs env b f s
    have hfs : handleFileSelect env b [f] s = handleSingleFile env b f s := rfl
    rw [hfs] at hp
    rcases h with h | h | h <;> rw [h] at hp
    · cases hp
    · simp at hp
      subst hp
      decide
    · simp at hp
      rcases hp with rfl | rfl <;> decide
  | f1 :: f2 :: rest =>
    simp only [handleFileSelect, reqPairs, fetchedReqs_append, batchLoop_fetches,
      loadDocuments_fetches, List.map_append] at hp
    rcases List.mem_append.mp hp with hl | hr
    · rcases List.mem_map.mp hl with ⟨r, hrmem, hpr⟩
      rcases List.mem_filterMap.mp hrmem with ⟨g, hg, hgr⟩
      rcases batchReqOf_shape hgr with ⟨body, hb2, rfl⟩
      rw [← hpr]
      show ("/api/add_document", "POST") ∈ endpointPairs
      decide
    · simp at hr
      subst hr
      decide

/-- C5: every HTTP request the client ever issues — across every handler
of all three script variants modelled here — targets one of exactly six
endpoint/method pairs: GET `/api/status`, GET `/api/documents`, POST
`/api/add_document`, POST `/api/query`, POST
`/api/generate_enhanced_review`, POST `/api/refine_review_section`. -/
theorem client_endpoints (env : Env) (b : Backend) (files : List FileEntry)
    (t : String) (s : AppState) :
    (∀ p ∈ reqPairs (handleProcessArticle env b s).2, p ∈ endpointPairs) ∧
    (∀ p ∈ reqPairs (handleFileSelect env b files s).2, p ∈ endpointPairs) ∧
    (∀ p ∈ reqPairs (handleGenerateReview env b s).2, p ∈ endpointPairs) ∧
    (∀ p ∈ reqPairs (P1.handleGenerateReview env b s).2, p ∈ endpointPairs) ∧
    (∀ p ∈ reqPairs (handleAskQuestion b s).2, p ∈ endpointPairs) ∧
    (∀ p ∈ reqPairs (handleAnalyzeText env b s).2, p ∈ endpointPairs) ∧
    (∀ p ∈ reqPairs (handleSimilarityCheck b s).2, p ∈ endpointPairs) ∧
    (∀ p ∈ reqPairs (P1.handleSectionRefinement env b t s).2, p ∈ endpointPairs) ∧
    (∀ p ∈ reqPairs (loadDocuments env b s).2, p ∈ endpointPairs) ∧
    (∀ p ∈ reqPairs (checkSystemStatus env b s).2.2, p ∈ endpointPairs) ∧
    (∀ p ∈ reqPairs (initializeApp env b s).2, p ∈ endpointPairs) := by
  refine ⟨?_, fileSelect_endpoints env b files s, ?_, ?_, ?_, ?_, ?_, ?_, ?_, ?_, ?_⟩
  · intro p hp
    rcases processArticle_pairs env b s with h | h | h <;> rw [h] at hp
    · cases hp
    · simp at hp; subst hp; decide
    · simp at hp; rcases hp with rfl | rfl <;> decide
  · intro p hp
    rcases generateReview_pairs env b s with h | h <;> rw [h] at hp
    · cases hp
    · simp at hp; subst hp; decide
  · intro p hp
    rcases enhancedReview_pairs env b s with h | h <;> rw [h] at hp
    · cases hp
    · simp at hp; subst hp; decide
  · intro p hp
    rcases askQuestion_pairs b s with h | h <;> rw [h] at hp
    · cases hp
    · simp at hp; subst hp; decide
  · intro p hp
    rcases analyzeText_pairs env b s with h | h <;> rw [h] at hp
    · cases hp
    · simp at hp; subst hp; decide
  · intro p hp
    rcases similarityCheck_pairs b s with h | h <;> rw [h] at hp
    · cases hp
    · simp at hp; subst hp; decide
  · intro p hp
    rcases sectionRefinement_pairs env b t s with h | h <;> rw [h] at hp
    · cases hp
    · simp at hp; subst hp; decide
  · intro p hp
    rw [loadDocuments_pairs env b s] at hp
    simp at hp; subst hp; decide
  · intro p hp
    rcases checkSystemStatus_pairs env b s with h | h <;> rw [h] at hp
    · simp at hp; subst hp; decide
    · simp at hp; rcases hp with rfl | rfl <;> decide
  · intro p hp
    have hinit : reqPairs (initializeApp env b s).2 =
        reqPairs (checkSystemStatus env b
          (setLoading s true "Connecting to GraphRAG system...")).2.2 := rfl
    rw [hinit] at hp
    rcases checkSystemStatus_pairs env b
        (setLoading s true "Connecting to GraphRAG system...") with h | h <;> rw [h] at hp
    · simp at hp; subst hp; decide
    · simp at hp; rcases hp with rfl | rfl <;> decide

/-- Witness for C5: the theorem applied to the ask-question run of the
witness state, whose one fetch is the `/api/query` POST. -/
theorem client_endpoints_witness : ("/api/query", "POST") ∈ endpointPairs :=
  (client_endpoints envW backendOk filesW "clarity" stateW).2.2.2.2.1 _ (by decide)

/-- Batch uploads of files with pairwise distinct names are pairwise
distinct requests (each body carries its filename). -/
theorem batch_reqs_nodup {files : List FileEntry}
    (h : (files.map FileEntry.name).Nodup) :
    (files.filterMap batchReqOf).Nodup := by
  induction files with
  | nil => simp
  | cons f rest ih =>
    simp only [List.map_cons, List.nodup_cons] at h
    obtain ⟨hnot, hrest⟩ := h
    simp only [List.filterMap_cons]
    cases hg : batchReqOf f with
    | none => exact ih hrest
    | some r =>
      refine List.nodup_cons.mpr ⟨?_, ih hrest⟩
      intro hmem
      rcases List.mem_filterMap.mp hmem with ⟨g, hgmem, hgr⟩
      rcases batchReqOf_shape hgr with ⟨bodyg, hbg, hrg⟩
      rcases batchReqOf_shape hg with ⟨bodyf, hbf, hrf⟩
      have hfn := batchRead_filename hbf
      have hgn := batchRead_filename hbg
      have hbody : bodyf = bodyg := by
        have hreq : apiReq "/add_document" "POST" (some bodyf) =
            apiReq "/add_document" "POST" (some bodyg) := hrf.symm.trans hrg
        have hb := congrArg ApiRequest.body hreq
        simp only [apiReq] at hb
        injection hb
      rw [hbody, hgn] at hfn
      injection hfn with hfn1
      injection hfn1 with hfn2
      exact hnot (hfn2 ▸ List.mem_map_of_mem FileEntry.name hgmem)

/-- The document reload is never one of the batch uploads. -/
theorem docs_req_not_batch {files : List FileEntry} :
    apiReq "/documents" "GET" none ∉ files.filterMap batchReqOf := by
  intro hmem
  rcases List.mem_filterMap.mp hmem with ⟨g, _, hgr⟩
  rcases batchReqOf_shape hgr with ⟨body, _, heq⟩
  have hu := congrArg ApiRequest.url heq
  simp only [apiReq] at hu
  exact absurd hu (by decide)

/-- Duplicate-freedom of a request list follows from duplicate-freedom
of its endpoint/method pairs. -/
theorem nodup_of_pairs {evs : List Event} {L : List (String × String)}
    (h : reqPairs evs = L) (hL : L.Nodup) : (fetchedReqs evs).Nodup := by
  have hh : (reqPairs evs).Nodup := by
    rw [h]
    exact hL
  exact List.Nodup.of_map _ hh

/-- C6: a failed backend request is never retried: every `apiCall`
performs exactly one fetch regardless of the response status, and no
handler issues the same request twice in one run — each handler's
request list is duplicate-free (for a multi-file upload, under pairwise
distinct file names), so in particular nothing is re-issued after a
caught error. -/
theorem no_request_retry (env : Env) (b : Backend) (files : List FileEntry)
    (t : String) (s : AppState) :
    (∀ e m d, (apiCall b e m d).2 = [Event.fetch (apiReq e m d)]) ∧
    (fetchedReqs (handleProcessArticle env b s).2).Nodup ∧
    ((files.map FileEntry.name).Nodup →
      (fetchedReqs (handleFileSelect env b files s).2).Nodup) ∧
    (fetchedReqs (handleGenerateReview env b s).2).Nodup ∧
    (fetchedReqs (P1.handleGenerateReview env b s).2).Nodup ∧
    (fetchedReqs (handleAskQuestion b s).2).Nodup ∧
    (fetchedReqs (handleAnalyzeText env b s).2).Nodup ∧
    (fetchedReqs (handleSimilarityCheck b s).2).Nodup ∧
    (fetchedReqs (P1.handleSectionRefinement env b t s).2).Nodup ∧
    (fetchedReqs (loadDocuments env b s).2).Nodup ∧
    (fetchedReqs (checkSystemStatus env b s).2.2).Nodup ∧
    (fetchedReqs (initializeApp env b s).2).Nodup := by
  refine ⟨apiCall_events b, ?_, ?_, ?_, ?_, ?_, ?_, ?_, ?_, ?_, ?_, ?_⟩
  · rcases processArticle_pairs env b s with h | h | h <;>
      exact nodup_of_pairs h (by decide)
  · intro hnames
    match files with
    | [] => simp [handleFileSelect, fetchedReqs]
    | [f] =>
      have hfs : handleFileSelect env b [f] s = handleSingleFile env b f s := rfl
      rw [hfs]
      rcases singleFile_pairs env b f s with h | h | h <;>
        exact nodup_of_pairs h (by decide)
    | f1 :: f2 :: rest =>
      simp only [handleFileSelect, fetchedReqs_append, batchLoop_fetches,
        loadDocuments_fetches]
      rw [List.nodup_append]
      refine ⟨batch_reqs_nodup hnames, by simp, ?_⟩
      intro r hrmem hrdocs
      simp only [List.mem_singleton] at hrdocs
      subst hrdocs
      exact docs_req_not_batch hrmem
  · rcases generateReview_pairs env b s with h | h <;>
      exact nodup_of_pairs h (by decide)
  · rcases enhancedReview_pairs env b s with h | h <;>
      exact nodup_of_pairs h (by decide)
  · rcases askQuestion_pairs b s with h | h <;>
      exact nodup_of_pairs h (by decide)
  · rcases analyzeText_pairs env b s with h | h <;>
      exact nodup_of_pairs h (by decide)
  · rcases similarityCheck_pairs b s with h | h <;>
      exact nodup_of_pairs h (by decide)
  · rcases sectionRefinement_pairs env b t s with h | h <;>
      exact nodup_of_pairs h (by decide)
  · exact nodup_of_pairs (loadDocuments_pairs env b s) (by decide)
  · rcases checkSystemStatus_pairs env b s with h | h <;>
      exact nodup_of_pairs h (by decide)
  · rcases checkSystemStatus_pairs env b
        (setLoading s true "Connecting to GraphRAG system...") with h | h <;>
      exact nodup_of_pairs h (by decide)

/-- Witness for C6: the theorem applied to the witness batch with
distinct file names under the failing backend. -/
theorem no_request_retry_witness :
    (fetchedReqs (handleFileSelect envW backendFail filesW stateW).2).Nodup :=
  (no_request_retry envW backendFail filesW "clarity" stateW).2.2.1 (by decide)

/-- Whether an event is a blocking alert dialog. -/
def isAlertEvt : Event → Bool
  | .alert _ => true
  | _ => false

/-- C1, counterexample to the claim as stated: a failing `/api/query`
request inside `handleAskQuestion` is surfaced through an inline chat
message, not through an alert dialog or a progress-log entry — the run
emits no alert and leaves the progress log untouched. -/
theorem askQuestion_failure_chat_only :
    (backendFail (apiReq "/query" "POST" (some (queryBody "why?")))).ok = false ∧
    (handleAskQuestion backendFail stateW).2.filter isAlertEvt = [] ∧
    (handleAskQuestion backendFail stateW).1.progressLog = stateW.progressLog ∧
    (handleAskQuestion backendFail stateW).1.chatMessages =
      stateW.chatMessages ++
        [("why?", "user"), ("Sorry, I encountered an error: boom", "model")] :=
  ⟨rfl, rfl, rfl, rfl⟩

/-- C1 (amended): every failure of a backend request inside a handler is
caught there (each handler is a total state transformer) and surfaced
through that handler's own channel: an alert for process article, the
file uploads, similarity check and section refinement; an alert plus a
progress-log entry for both generate-review variants; an inline chat
message for ask question; inline panel text for analyze text — except
that a failure of the document-list reload or of the startup status
check is only logged to the console. -/
theorem failures_surfaced (env : Env) (b : Backend) (file : FileEntry)
    (t : String) (s : AppState) :
    (∀ e evs, ¬ jsTrim s.articleInput = "" →
      apiCall b "/add_document" "POST" (some (addDocBody env s)) = (.error e, evs) →
      Event.alert ("❌ Error adding document: " ++ e.message) ∈
        (handleProcessArticle env b s).2) ∧
    (∀ e evs, ¬ jsTrim s.reviewTopicInput = "" → ¬ s.documents.length = 0 →
      apiCall b "/query" "POST" (some (queryBody (reviewPrompt s))) = (.error e, evs) →
      Event.alert "Error generating literature review." ∈
        (handleGenerateReview env b s).2 ∧
      ("<div class=\"log-entry\">" ++ ("❌ Error: " ++ e.message) ++ "</div>") ∈
        (handleGenerateReview env b s).1.progressLog) ∧
    (∀ e evs, ¬ jsTrim s.reviewTopicInput = "" → ¬ s.documents.length = 0 →
      apiCall b "/generate_enhanced_review" "POST" (some (P1.enhancedReviewBody s)) =
        (.error e, evs) →
      Event.alert "Error generating enhanced literature review." ∈
        (P1.handleGenerateReview env b s).2 ∧
      ("<div class=\"log-entry\">" ++ ("❌ Error: " ++ e.message) ++ "</div>") ∈
        (P1.handleGenerateReview env b s).1.progressLog) ∧
    (∀ e evs, ¬ jsTrim s.questionInput = "" → s.isLoading = false →
      ¬ s.documents.length = 0 →
      apiCall b "/query" "POST" (some (queryBody (jsTrim s.questionInput))) =
        (.error e, evs) →
      ("Sorry, I encountered an error: " ++ e.message, "model") ∈
        (handleAskQuestion b s).1.chatMessages) ∧
    (∀ e evs, ¬ jsTrim s.writingEditorText = "" →
      apiCall b "/query" "POST"
          (some (queryBody (analyzePrompt (jsTrim s.writingEditorText)))) =
        (.error e, evs) →
      (handleAnalyzeText env b s).1.suggestionsPanel =
        "<div class=\"placeholder\">Failed to analyze text.</div>") ∧
    (∀ e evs, ¬ jsTrim s.writingEditorText = "" →
      apiCall b "/query" "POST"
          (some (queryBody (similarityPrompt (jsTrim s.writingEditorText)))) =
        (.error e, evs) →
      Event.alert "Error during similarity check." ∈ (handleSimilarityCheck b s).2) ∧
    (∀ e evs, ¬ s.reviewDraftOutput = "" →
      apiCall b "/refine_review_section" "POST" (some (P1.refineBody t s)) =
        (.error e, evs) →
      Event.alert ("Error applying refinement: " ++ e.message) ∈
        (P1.handleSectionRefinement env b t s).2) ∧
    (∀ e evs base64,
      (file.mime == "application/pdf" || fileExtensionOf file.name == "pdf") = true →
      file.readDataUrl = .ok base64 →
      apiCall b "/add_document" "POST"
          (some (.obj [("content", .str base64), ("filename", .str file.name),
                       ("file_type", .str "pdf")])) = (.error e, evs) →
      Event.alert ("Error processing " ++ file.name ++ ": " ++ e.message) ∈
        (handleSingleFile env b file s).2) ∧
    (∀ e evs body, batchRead file = .ok body →
      apiCall b "/add_document" "POST" (some body) = (.error e, evs) →
      Event.alert (batchAlertMsg file.name) ∈ stepEvs b file) ∧
    (∀ e evs,
      apiCall b "/documents" "GET" none = (.error e, evs) →
      loadDocuments env b s =
        (s, evs ++ [.consoleError ("Error loading documents: " ++ e.message)])) ∧
    (∀ e evs,
      apiCall b "/status" "GET" none = (.error e, evs) →
      checkSystemStatus env b s = (false, s, evs ++ [.consoleError "System not ready"])) := by
  refine ⟨?_, ?_, ?_, ?_, ?_, ?_, ?_, ?_, ?_, ?_, ?_⟩
  · intro e evs h1 hpair
    have hb1 : (jsTrim s.articleInput == "") = false := beq_eq_false_iff_ne.mpr h1
    simp [handleProcessArticle, hb1, hpair]
  · intro e evs h1 h2 hpair
    have hb1 : (jsTrim s.reviewTopicInput == "") = false := beq_eq_false_iff_ne.mpr h1
    have hb2 : (s.documents.length == 0) = false := beq_eq_false_iff_ne.mpr h2
    constructor <;>
      simp [handleGenerateReview, hb1, hb2, hpair, setLoading, addProgressLog]
  · intro e evs h1 h2 hpair
    have hb1 : (jsTrim s.reviewTopicInput == "") = false := beq_eq_false_iff_ne.mpr h1
    have hb2 : (s.documents.length == 0) = false := beq_eq_false_iff_ne.mpr h2
    constructor <;>
      simp [P1.handleGenerateReview, hb1, hb2, hpair, setLoading, addProgressLog,
        P1.updatePhaseIndicator]
  · intro e evs h1 h2 h3 hpair
    have hb1 : (jsTrim s.questionInput == "") = false := beq_eq_false_iff_ne.mpr h1
    have hb3 : (s.documents.length == 0) = false := beq_eq_false_iff_ne.mpr h3
    simp [handleAskQuestion, hb1, h2, hb3, hpair, setLoading, addMessageToChat]
  · intro e evs h1 hpair
    have hb1 : (jsTrim s.writingEditorText == "") = false := beq_eq_false_iff_ne.mpr h1
    simp [handleAnalyzeText, hb1, hpair, setLoading]
  · intro e evs h1 hpair
    have hb1 : (jsTrim s.writingEditorText == "") = false := beq_eq_false_iff_ne.mpr h1
    simp [handleSimilarityCheck, hb1, hpair]
  · intro e evs h1 hpair
    have hb1 : (s.reviewDraftOutput == "") = false := beq_eq_false_iff_ne.mpr h1
    simp [P1.handleSectionRefinement, hb1, hpair]
  · intro e evs base64 hc hread hpair
    simp [handleSingleFile, hc, hread, hpair]
  · intro e evs body hread hpair
    simp [stepEvs, hread, hpair]
  · intro e evs hpair
    simp [loadDocuments, hpair]
  · intro e evs hpair
    simp [checkSystemStatus, hpair]

/-- Witness for C1: the amended theorem applied to the failing
ask-question run of the witness state. -/
theorem failures_surfaced_witness :
    ("Sorry, I encountered an error: boom", "model") ∈
      (handleAskQuestion backendFail stateW).1.chatMessages :=
  (failures_surfaced envW backendFail
      ⟨"good.txt", "text/plain", .ok "file text", .ok "data:text"⟩
      "clarity" stateW).2.2.2.1
    (JsError.error "boom")
    [.fetch (apiReq "/query" "POST" (some (queryBody "why?")))]
    (by decide) rfl (by decide) rfl
